import Mathlib

/-!
The callback latch and the container lifecycle of hostcompute_nspawn.

A shallow embedding of `src/hostcompute_nspawn.cpp`.

* `CallbackLatch` is the class of lines 58-116.  Its `std::mutex` is a boolean
  (owned or not), each `std::atomic<bool>` flag is a boolean, and each
  `std::condition_variable` is the number of `notify_all` broadcasts it has
  performed.  The function-local `static bool the_false` of `unlock_internal`
  is process-wide state and is threaded explicitly.
* `spawn_and_wait` is the function of lines 127-370, one definition per block
  of the source.  The layer driver and the compute engine are an `Engine`: the
  return code of every call and the callback invocations that follow it.  A
  run is the list of calls and latch operations of the orchestrating thread,
  in program order, and how it ends: it returns, it throws, it stays in a
  wait whose flag is never set, or it locks a mutex it already owns.  String
  conversion, JSON encoding and the log lines carry no control flow and are
  left out.
* `hostcompute_nspawn` is the exported function of lines 374-388.

The theorems about all runs go through `spawn_and_wait_skeleton`: every run is
a run of the control skeleton, the same blocks on the part of the state the
control flow reads.  What a wait needs from the engine goes through
`wait_satisfied`: from a process that has not signalled before, and while no
recognised kind is reported twice, every delivered notification sets its flag.
-/

namespace nspawn

/-! ## Constants -/

/-- The code `HcsErrors::OPERATION_PENDING`. -/
def OPERATION_PENDING : Nat := 0xC0370103

/-- The `uint32_t` behind `enum class NotificationType`. -/
abbrev NotificationType := Nat

namespace NotificationType

def SYSTEM_EXIT : NotificationType := 0x00000001
def SYSTEM_CREATE_COMPLETE : NotificationType := 0x00000002
def SYSTEM_START_COMPLETE : NotificationType := 0x00000003
def SYSTEM_PAUSE_COMPLETE : NotificationType := 0x00000004
def SYSTEM_RESUME_COMPLETE : NotificationType := 0x00000005
def PROCESS_EXIT : NotificationType := 0x00010000
def COMMON_INVALID : NotificationType := 0x00000000
def COMMON_SERVICE_DISCONNECT : NotificationType := 0x01000000

end NotificationType

open NotificationType

/-! ## CallbackLatch -/

/-- The members of `class CallbackLatch`: `mutex` is true while the mutex is owned,
a `_cv` field counts the `notify_all` broadcasts of that condition variable. -/
structure CallbackLatch where
  mutex : Bool := false
  system_create_cv : Nat := 0
  system_create_flag : Bool := false
  system_start_cv : Nat := 0
  system_start_flag : Bool := false
  system_exit_cv : Nat := 0
  system_exit_flag : Bool := false
  process_exit_cv : Nat := 0
  process_exit_flag : Bool := false
  deriving DecidableEq, Repr

/-- The functions of the layer driver and of the compute engine that `spawn_and_wait`
calls, in the order of their call sites. -/
inductive Api
  | CreateSandboxLayer
  | ActivateLayer
  | PrepareLayer
  | GetLayerMountPath
  | HcsCreateComputeSystem
  | HcsRegisterComputeSystemCallback
  | HcsEnumerateComputeSystems
  | HcsStartComputeSystem
  | HcsCreateProcess
  | HcsRegisterProcessCallback
  | HcsTerminateComputeSystem
  | UnprepareLayer
  | DeactivateLayer
  | DestroyLayer
  deriving DecidableEq, Repr

/-- The exception class thrown by the orchestrator.  Of the message only its shape is kept:
the unsupported notification type, or which call failed with which code. -/
inductive NSpawnException
  | unsupported_notification_type
  | call_failed (api : Api) (res : Nat)
  deriving DecidableEq, Repr

/-- The member `std::atomic<bool>::compare_exchange_strong(expected, desired)` on a flag:
the new flag, the new content of `expected` (passed by reference) and the result.
On a mismatch the value of the flag is loaded into `expected`. -/
def compare_exchange_strong (flag expected desired : Bool) : Bool × Bool × Bool :=
  if flag = expected then (desired, expected, true) else (flag, flag, false)

/-- The private `unlock_internal(cv, flag)`, with the static `the_false` as third component:
returns the condition variable, the flag and `the_false` after the call.  The guard
taken around `notify_all` is released at the end of the branch, so the mutex is as before
(a callback thread that finds the mutex owned waits for it and broadcasts afterwards). -/
def unlock_internal (cv : Nat) (flag : Bool) (the_false : Bool) : Nat × Bool × Bool :=
  match compare_exchange_strong flag the_false true with
  | (flag1, the_false1, true) => (cv + 1, flag1, the_false1)
  | (flag1, the_false1, false) => (cv, flag1, the_false1)

/-- What `await` does to the calling thread. -/
inductive Awaited
  /-- The predicate of `cv.wait` holds: the call returns, the adopted guard releases the mutex. -/
  | returned (la : CallbackLatch)
  /-- The predicate is false: the thread is inside `cv.wait`, which has released the mutex. -/
  | waiting (la : CallbackLatch)
  /-- The `default:` branch: the exception is thrown, nothing else is touched. -/
  | thrown (e : NSpawnException)
  deriving DecidableEq, Repr

namespace CallbackLatch

/-- The method `lock()`: acquires the mutex and keeps it (`guard.release()`).
It is `none` when the calling thread already owns the mutex: locking a `std::mutex`
again from its owner is undefined, the thread does not get past the call. -/
def lock (la : CallbackLatch) : Option CallbackLatch :=
  if la.mutex then none else some { la with mutex := true }

/-- The private `await_internal(cv, flag)`: adopts the mutex and waits on the predicate
`flag.load()`. -/
def await_internal (la : CallbackLatch) (flag : Bool) : Awaited :=
  if flag then Awaited.returned { la with mutex := false }
  else Awaited.waiting { la with mutex := false }

/-- The method `await(nt)`. -/
def await (la : CallbackLatch) (nt : NotificationType) : Awaited :=
  if nt = SYSTEM_CREATE_COMPLETE then la.await_internal la.system_create_flag
  else if nt = SYSTEM_START_COMPLETE then la.await_internal la.system_start_flag
  else if nt = SYSTEM_EXIT then la.await_internal la.system_exit_flag
  else if nt = PROCESS_EXIT then la.await_internal la.process_exit_flag
  else Awaited.thrown NSpawnException.unsupported_notification_type

/-- The method `unlock(nt)` together with the static `the_false` it reads and writes. -/
def unlock (la : CallbackLatch) (the_false : Bool) (nt : NotificationType) :
    CallbackLatch × Bool :=
  if nt = SYSTEM_CREATE_COMPLETE then
    match unlock_internal la.system_create_cv la.system_create_flag the_false with
    | (cv, flag, tf) => ({ la with system_create_cv := cv, system_create_flag := flag }, tf)
  else if nt = SYSTEM_START_COMPLETE then
    match unlock_internal la.system_start_cv la.system_start_flag the_false with
    | (cv, flag, tf) => ({ la with system_start_cv := cv, system_start_flag := flag }, tf)
  else if nt = SYSTEM_EXIT then
    match unlock_internal la.system_exit_cv la.system_exit_flag the_false with
    | (cv, flag, tf) => ({ la with system_exit_cv := cv, system_exit_flag := flag }, tf)
  else if nt = PROCESS_EXIT then
    match unlock_internal la.process_exit_cv la.process_exit_flag the_false with
    | (cv, flag, tf) => ({ la with process_exit_cv := cv, process_exit_flag := flag }, tf)
  else (la, the_false)

/-- The fired flag that `await` and `unlock` select for a recognised kind. -/
def flag (la : CallbackLatch) (nt : NotificationType) : Bool :=
  if nt = SYSTEM_CREATE_COMPLETE then la.system_create_flag
  else if nt = SYSTEM_START_COMPLETE then la.system_start_flag
  else if nt = SYSTEM_EXIT then la.system_exit_flag
  else if nt = PROCESS_EXIT then la.process_exit_flag
  else false

/-- The broadcast count of the condition variable selected for a recognised kind. -/
def cv (la : CallbackLatch) (nt : NotificationType) : Nat :=
  if nt = SYSTEM_CREATE_COMPLETE then la.system_create_cv
  else if nt = SYSTEM_START_COMPLETE then la.system_start_cv
  else if nt = SYSTEM_EXIT then la.system_exit_cv
  else if nt = PROCESS_EXIT then la.process_exit_cv
  else 0

/-- Successive `unlock` calls on one latch, for the kinds listed, the static `the_false`
carried from call to call. -/
def unlock_all (la : CallbackLatch) (the_false : Bool) (kinds : List NotificationType) :
    CallbackLatch × Bool :=
  kinds.foldl (fun p nt => p.1.unlock p.2 nt) (la, the_false)

/-- A latch whose mutex is owned and whose four flags are set. -/
def all_set : CallbackLatch :=
  { mutex := true, system_create_flag := true, system_start_flag := true,
    system_exit_flag := true, process_exit_flag := true }

end CallbackLatch

/-! ## The engine and the state of a run -/

/-- The two `CallbackLatch` locals of `spawn_and_wait`. -/
inductive LatchId
  | cs_latch
  | process_latch
  deriving DecidableEq, Repr

/-- The two handles a callback can be registered on. -/
inductive Handle
  | computeSystem
  | process
  deriving DecidableEq, Repr

/-- One invocation of a registered callback by the engine: the handle it is about and the
`notificationType` argument. -/
structure Notification where
  handle : Handle
  notificationType : Nat
  deriving DecidableEq, Repr

/-- The external layer driver and compute engine as seen by one run: `res` is the code each
call returns, `notifications` are the callback invocations the engine makes once that call has
been issued, up to the end of the wait that follows it (up to the next call when none does). -/
structure Engine where
  res : Api → Nat
  notifications : Api → List Notification

/-- What the orchestrating thread does, in program order: an external call (for a callback
registration, with the latch whose address is the context argument), `lock()` on a latch,
`await(nt)` on a latch. -/
inductive Event
  | call (api : Api) (context : Option LatchId)
  | lock (la : LatchId)
  | await (la : LatchId) (nt : NotificationType)
  deriving DecidableEq, Repr

/-- How a run ends: it returns, it throws, it stays in `cv.wait` on a flag that is not set,
or it calls `lock()` on a mutex it already owns. -/
inductive Outcome
  | returned
  | thrown (e : NSpawnException)
  | waiting (la : LatchId) (nt : NotificationType)
  | relock (la : LatchId)
  deriving DecidableEq, Repr

/-- The state of a run: the static `the_false`, the two latches, for each handle the
registration the engine holds once `cs_callback_handle` or `process_callback_handle` has been
filled in (kept as the context it was given), and the events so far. -/
structure State where
  the_false : Bool
  cs_latch : CallbackLatch := {}
  process_latch : CallbackLatch := {}
  cs_callback_handle : Option LatchId := none
  process_callback_handle : Option LatchId := none
  trace : List Event := []
  deriving DecidableEq, Repr

/-- The result of one block of `spawn_and_wait`: go on with the next block, or the run ends. -/
inductive Step
  | next (s : State)
  | stop (o : Outcome) (s : State)
  deriving DecidableEq, Repr

namespace Step

/-- Sequencing of blocks. -/
def andThen (r : Step) (f : State → Step) : Step :=
  match r with
  | next s => f s
  | stop o s => stop o s

end Step

namespace State

/-- The latch behind an address. -/
def latch (s : State) : LatchId → CallbackLatch
  | LatchId.cs_latch => s.cs_latch
  | LatchId.process_latch => s.process_latch

/-- Stores a latch back. -/
def setLatch (s : State) (l : LatchId) (la : CallbackLatch) : State :=
  match l with
  | LatchId.cs_latch => { s with cs_latch := la }
  | LatchId.process_latch => { s with process_latch := la }

/-- Appends an event. -/
def emit (s : State) (ev : Event) : State :=
  { s with trace := s.trace ++ [ev] }

/-- The lambda `cs_callback(notificationType, context, ...)`: forwards to `unlock` on the
latch the context points to. -/
def cs_callback (s : State) (notificationType : Nat) (context : LatchId) : State :=
  match (s.latch context).unlock s.the_false notificationType with
  | (la, tf) => { s.setLatch context la with the_false := tf }

/-- The engine invokes the callback registered on the handle of the notification, with the
context given at registration; nothing runs when no callback is registered on it. -/
def deliver (s : State) (n : Notification) : State :=
  match n.handle with
  | Handle.computeSystem =>
    match s.cs_callback_handle with
    | some context => s.cs_callback n.notificationType context
    | none => s
  | Handle.process =>
    match s.process_callback_handle with
    | some context => s.cs_callback n.notificationType context
    | none => s

/-- A call that registers nothing: the event, then the notifications that follow it. -/
def invoke (e : Engine) (api : Api) (s : State) : State :=
  (e.notifications api).foldl deliver (s.emit (Event.call api none))

/-- A callback registration with `context` the address of a latch: the event, the engine
keeps the context when it returns 0, then the notifications that follow. -/
def register (e : Engine) (api : Api) (h : Handle) (context : LatchId) (s : State) : State :=
  let s1 := s.emit (Event.call api (some context))
  let s2 : State :=
    if e.res api = 0 then
      match h with
      | Handle.computeSystem => { s1 with cs_callback_handle := some context }
      | Handle.process => { s1 with process_callback_handle := some context }
    else s1
  (e.notifications api).foldl deliver s2

/-- The state once `la.lock()` has acquired the mutex of latch `l`. -/
def locked (s : State) (l : LatchId) : State :=
  (s.emit (Event.lock l)).setLatch l { s.latch l with mutex := true }

/-- The call `la.lock()` by the orchestrating thread. -/
def lock (s : State) (l : LatchId) : Step :=
  match (s.latch l).lock with
  | some la => Step.next ((s.emit (Event.lock l)).setLatch l la)
  | none => Step.stop (Outcome.relock l) (s.emit (Event.lock l))

/-- The state once `la.await(nt)` has adopted the mutex of latch `l` and given it up, on
return or inside the wait. -/
def awaited (s : State) (l : LatchId) (nt : NotificationType) : State :=
  (s.emit (Event.await l nt)).setLatch l { s.latch l with mutex := false }

/-- The call `la.await(nt)` by the orchestrating thread. -/
def await (s : State) (l : LatchId) (nt : NotificationType) : Step :=
  match (s.latch l).await nt with
  | Awaited.returned la => Step.next ((s.emit (Event.await l nt)).setLatch l la)
  | Awaited.waiting la =>
    Step.stop (Outcome.waiting l nt) ((s.emit (Event.await l nt)).setLatch l la)
  | Awaited.thrown ex => Step.stop (Outcome.thrown ex) (s.emit (Event.await l nt))

/-- The declaration `CallbackLatch l;`: the latch is default-constructed. -/
def construct (s : State) (l : LatchId) : State :=
  s.setLatch l {}

end State

/-! ## spawn_and_wait, block by block -/

/-- The configuration object; its fields only feed the arguments of the calls. -/
structure NSpawnConfig where
  process_executable : String
  mapped_directory : String
  parent_layer_directory : String
  process_directory : String
  stdout_filename : String
  deriving DecidableEq, Repr

/-- The pattern of the acquisition blocks: the call is issued and any result other than
`expected` throws (`if (expected != res) throw NSpawnException(...)`). -/
def must_return (expected : Nat) (e : Engine) (api : Api) (s : State) : Step :=
  if expected ≠ e.res api then
    Step.stop (Outcome.thrown (NSpawnException.call_failed api (e.res api))) (s.invoke e api)
  else Step.next (s.invoke e api)

/-- Block `create layer`, lines 150-162. -/
def create_layer (e : Engine) (s : State) : Step :=
  must_return 0 e Api.CreateSandboxLayer s

/-- Block `activate layer`, lines 164-173. -/
def activate_layer (e : Engine) (s : State) : Step :=
  must_return 0 e Api.ActivateLayer s

/-- Block `prepare layer`, lines 175-185. -/
def prepare_layer (e : Engine) (s : State) : Step :=
  must_return 0 e Api.PrepareLayer s

/-- Block `find out mount path`, lines 189-204. -/
def find_out_mount_path (e : Engine) (s : State) : Step :=
  must_return 0 e Api.GetLayerMountPath s

/-- Block `create container`, lines 212-228. -/
def create_container (e : Engine) (s : State) : Step :=
  must_return OPERATION_PENDING e Api.HcsCreateComputeSystem s

/-- Block `register callback`, lines 241-254, after the declaration of `cs_latch` at
line 231. -/
def register_callback (e : Engine) (s : State) : Step :=
  ((s.construct LatchId.cs_latch).lock LatchId.cs_latch).andThen fun s1 =>
    let s2 := s1.register e Api.HcsRegisterComputeSystemCallback Handle.computeSystem
      LatchId.cs_latch
    if 0 = e.res Api.HcsRegisterComputeSystemCallback then
      s2.await LatchId.cs_latch SYSTEM_CREATE_COMPLETE
    else Step.next s2

/-- Block `enumerate`, lines 256-267. -/
def enumerate (e : Engine) (s : State) : Step :=
  must_return 0 e Api.HcsEnumerateComputeSystems s

/-- Block `start`, lines 269-280. -/
def start (e : Engine) (s : State) : Step :=
  (s.lock LatchId.cs_latch).andThen fun s1 =>
    (must_return OPERATION_PENDING e Api.HcsStartComputeSystem s1).andThen fun s2 =>
      s2.await LatchId.cs_latch SYSTEM_START_COMPLETE

/-- Block `start process`, lines 284-300. -/
def start_process (e : Engine) (s : State) : Step :=
  must_return 0 e Api.HcsCreateProcess s

/-- Block `process callback`, lines 305-317, after the declaration of `process_latch` at
line 303; the block itself locks, registers and awaits `cs_latch`. -/
def process_callback (e : Engine) (s : State) : Step :=
  ((s.construct LatchId.process_latch).lock LatchId.cs_latch).andThen fun s1 =>
    let s2 := s1.register e Api.HcsRegisterProcessCallback Handle.process LatchId.cs_latch
    if 0 = e.res Api.HcsRegisterProcessCallback then
      s2.await LatchId.cs_latch PROCESS_EXIT
    else Step.next s2

/-- Block `terminate`, lines 319-331. -/
def terminate (e : Engine) (s : State) : Step :=
  (s.lock LatchId.cs_latch).andThen fun s1 =>
    let s2 := s1.invoke e Api.HcsTerminateComputeSystem
    if OPERATION_PENDING = e.res Api.HcsTerminateComputeSystem then
      s2.await LatchId.cs_latch SYSTEM_EXIT
    else Step.next s2

/-- Block `unprepare layer`, lines 333-343: both branches only log. -/
def unprepare_layer (e : Engine) (s : State) : Step :=
  if 0 = e.res Api.UnprepareLayer then Step.next (s.invoke e Api.UnprepareLayer)
  else Step.next (s.invoke e Api.UnprepareLayer)

/-- Block `deactivate layer`, lines 345-355: both branches only log. -/
def deactivate_layer (e : Engine) (s : State) : Step :=
  if 0 = e.res Api.DeactivateLayer then Step.next (s.invoke e Api.DeactivateLayer)
  else Step.next (s.invoke e Api.DeactivateLayer)

/-- Block `destroy layer`, lines 357-367: both branches only log. -/
def destroy_layer (e : Engine) (s : State) : Step :=
  if 0 = e.res Api.DestroyLayer then Step.next (s.invoke e Api.DestroyLayer)
  else Step.next (s.invoke e Api.DestroyLayer)

/-- The blocks of `spawn_and_wait` in source order. -/
def program : List (Engine → State → Step) :=
  [create_layer, activate_layer, prepare_layer, find_out_mount_path, create_container,
   register_callback, enumerate, start, start_process, process_callback, terminate,
   unprepare_layer, deactivate_layer, destroy_layer]

/-- Runs blocks one after the other; a block that throws, stays in a wait or locks its own
mutex again ends the run, and after the last block the function returns. -/
def run_blocks (e : Engine) : List (Engine → State → Step) → State → Step
  | [], s => Step.stop Outcome.returned s
  | b :: bs, s => (b e s).andThen (run_blocks e bs)

/-- A finished run: how it ended and the final state, whose `trace` lists its events. -/
structure Run where
  outcome : Outcome
  state : State
  deriving DecidableEq, Repr

/-- The events of a run. -/
def Run.trace (r : Run) : List Event := r.state.trace

/-- The function called by an event, when it is a call. -/
def Event.api : Event → Option Api
  | Event.call api _ => some api
  | _ => none

/-- The calls of a run to the layer driver and the compute engine, in order. -/
def Run.calls (r : Run) : List Api :=
  r.trace.filterMap Event.api

/-- The run a chain of blocks amounts to. -/
def Step.finish : Step → Run
  | Step.next s => { outcome := Outcome.returned, state := s }
  | Step.stop o s => { outcome := o, state := s }

/-- Whether the run is left inside a wait. -/
def Outcome.is_waiting : Outcome → Bool
  | Outcome.waiting _ _ => true
  | _ => false

/-- The run does not end inside a wait.  This reads the outcome of the run only; what the
engine has to do for it is `Engine.delivers` and `Engine.once` below. -/
def Run.not_waiting (r : Run) : Prop :=
  r.outcome.is_waiting = false

instance (r : Run) : Decidable r.not_waiting :=
  inferInstanceAs (Decidable (r.outcome.is_waiting = false))

/-- The function `spawn_and_wait(config)` against an engine, entered with the static
`the_false` holding the given value (`false` in a process that has not signalled before). -/
def spawn_and_wait (_config : NSpawnConfig) (e : Engine) (the_false : Bool) : Run :=
  (run_blocks e program { the_false := the_false }).finish

/-! ## Reading a trace -/

/-- The lifecycle calls in the order of the source. -/
def lifecycle : List Api :=
  [Api.CreateSandboxLayer, Api.ActivateLayer, Api.PrepareLayer, Api.GetLayerMountPath,
   Api.HcsCreateComputeSystem, Api.HcsRegisterComputeSystemCallback,
   Api.HcsEnumerateComputeSystems, Api.HcsStartComputeSystem, Api.HcsCreateProcess,
   Api.HcsRegisterProcessCallback, Api.HcsTerminateComputeSystem, Api.UnprepareLayer,
   Api.DeactivateLayer, Api.DestroyLayer]

/-- The engine call after which the completion of a kind can be delivered to the waiting
thread: the one issued between `lock()` and `await` of that kind. -/
def deliverable_by (nt : NotificationType) : Option Api :=
  if nt = SYSTEM_CREATE_COMPLETE then some Api.HcsRegisterComputeSystemCallback
  else if nt = SYSTEM_START_COMPLETE then some Api.HcsStartComputeSystem
  else if nt = PROCESS_EXIT then some Api.HcsRegisterProcessCallback
  else if nt = SYSTEM_EXIT then some Api.HcsTerminateComputeSystem
  else none

/-- Whether `nt` is one of the four kinds a latch has a fired flag for. -/
def recognised (nt : NotificationType) : Bool :=
  decide (nt = SYSTEM_CREATE_COMPLETE ∨ nt = SYSTEM_START_COMPLETE ∨ nt = SYSTEM_EXIT ∨
    nt = PROCESS_EXIT)

/-- The handle whose callback reports a kind: the process for `PROCESS_EXIT`, the compute
system for the others. -/
def reported_on (nt : NotificationType) : Handle :=
  if nt = PROCESS_EXIT then Handle.process else Handle.computeSystem

/-- The engine delivers the kind `nt` to the run that awaits it: after the call that
`deliverable_by` names, it invokes the callback of the handle concerned with `nt`. -/
def Engine.delivers (e : Engine) (nt : NotificationType) : Bool :=
  match deliverable_by nt with
  | some api => decide (Notification.mk (reported_on nt) nt ∈ e.notifications api)
  | none => false

/-- The callback invocations of the engine after the listed calls, in order. -/
def Engine.notifications_of (e : Engine) (apis : List Api) : List Notification :=
  apis.foldr (fun api rest => e.notifications api ++ rest) []

/-- The recognised kinds among the notifications listed. -/
def recognised_kinds (ns : List Notification) : List NotificationType :=
  (ns.map Notification.notificationType).filter recognised

/-- Over the calls of a run the engine reports no recognised kind twice. -/
def Engine.once (e : Engine) : Prop :=
  (recognised_kinds (e.notifications_of lifecycle)).Nodup

instance (e : Engine) : Decidable e.once :=
  inferInstanceAs (Decidable (recognised_kinds (e.notifications_of lifecycle)).Nodup)

/-- No signal has been lost so far and none of the notifications still to come, `rest`, can
be: the static `the_false` is false, a registered callback has `cs_latch` as context, the
flag of every recognised kind still to come is unset, and no such kind comes twice. -/
def State.Sound (s : State) (rest : List Notification) : Prop :=
  s.the_false = false ∧
  (s.cs_callback_handle = none ∨ s.cs_callback_handle = some LatchId.cs_latch) ∧
  (s.process_callback_handle = none ∨ s.process_callback_handle = some LatchId.cs_latch) ∧
  (∀ nt ∈ recognised_kinds rest, s.cs_latch.flag nt = false) ∧
  (recognised_kinds rest).Nodup

/-- The context of the callback through which a notification arrives. -/
def State.context_of (s : State) (n : Notification) : Option LatchId :=
  match n.handle with
  | Handle.computeSystem => s.cs_callback_handle
  | Handle.process => s.process_callback_handle

/-- Whenever the mutex of `cs_latch` is free, the system callback is registered with
`cs_latch` as context; this holds from the `register callback` block on. -/
def State.Registered (s : State) : Prop :=
  s.cs_latch.mutex = false → s.cs_callback_handle = some LatchId.cs_latch

/-- An outcome the engine answers for: when the run ends in a wait, it waits for one of the
four recognised kinds and the engine did not deliver that kind. -/
def Engine.excuses (e : Engine) (o : Outcome) : Prop :=
  ∀ la nt, o = Outcome.waiting la nt → recognised nt = true ∧ e.delivers nt = false

/-- The return codes of the happy path: every call of the layer driver, both callback
registrations, `enumerate` and `createProcess` return 0, and `createSystem`, `startSystem`
and `terminateSystem` return the pending code. -/
def Engine.succeeds (e : Engine) : Prop :=
  e.res Api.CreateSandboxLayer = 0 ∧ e.res Api.ActivateLayer = 0 ∧
  e.res Api.PrepareLayer = 0 ∧ e.res Api.GetLayerMountPath = 0 ∧
  e.res Api.HcsCreateComputeSystem = OPERATION_PENDING ∧
  e.res Api.HcsRegisterComputeSystemCallback = 0 ∧
  e.res Api.HcsEnumerateComputeSystems = 0 ∧
  e.res Api.HcsStartComputeSystem = OPERATION_PENDING ∧
  e.res Api.HcsCreateProcess = 0 ∧ e.res Api.HcsRegisterProcessCallback = 0 ∧
  e.res Api.HcsTerminateComputeSystem = OPERATION_PENDING ∧
  e.res Api.UnprepareLayer = 0 ∧ e.res Api.DeactivateLayer = 0 ∧
  e.res Api.DestroyLayer = 0

instance (e : Engine) : Decidable e.succeeds := by
  unfold Engine.succeeds
  infer_instance

/-- The engine delivers each of the four notifications the run awaits. -/
def Engine.delivers_awaited (e : Engine) : Prop :=
  e.delivers SYSTEM_CREATE_COMPLETE = true ∧ e.delivers SYSTEM_START_COMPLETE = true ∧
  e.delivers PROCESS_EXIT = true ∧ e.delivers SYSTEM_EXIT = true

instance (e : Engine) : Decidable e.delivers_awaited := by
  unfold Engine.delivers_awaited
  infer_instance

/-- What a block leaves: `P` of the state when the run goes on, `Q` of the outcome when it
ends. -/
def Step.Post (r : Step) (P : State → Prop) (Q : Outcome → Prop) : Prop :=
  match r with
  | Step.next s => P s
  | Step.stop o _ => Q o

/-- The latch an event involves: the one locked or awaited, or the context of a
registration. -/
def Event.latch : Event → Option LatchId
  | Event.call _ context => context
  | Event.lock la => some la
  | Event.await la _ => some la

/-- Checks position `i` of a trace: an `await(nt)` there has `lock()` on the same latch two
positions before and, in between, the call that makes `nt` deliverable. -/
def armed_at (t : List Event) (i : Nat) : Bool :=
  match t[i]? with
  | some (Event.await la nt) =>
    decide (2 ≤ i) && decide (t[i - 2]? = some (Event.lock la)) &&
      decide ((deliverable_by nt).isSome = true) &&
      decide ((t[i - 1]?).bind Event.api = deliverable_by nt)
  | _ => true

/-- Checks every position of a trace with `armed_at`. -/
def armed (t : List Event) : Bool :=
  (List.range t.length).all (armed_at t)

/-- Follows the `lock()` and `await` events of a trace, `held` being the latches whose mutex
the orchestrating thread owns: `lock()` takes the mutex, `await` gives it up.  The result is
`none` when `lock()` is called on a latch that is still held, otherwise the latches still
held where the trace ends. -/
def arm_balance : List LatchId → List Event → Option (List LatchId)
  | held, [] => some held
  | held, Event.lock la :: t => if la ∈ held then none else arm_balance (la :: held) t
  | held, Event.await la _ :: t => arm_balance (held.erase la) t
  | held, Event.call _ _ :: t => arm_balance held t

/-- Whether the run ends in `lock()` on a mutex the thread owns. -/
def Outcome.is_relock : Outcome → Bool
  | Outcome.relock _ => true
  | _ => false

/-- The events that follow the first occurrence of `ev`. -/
def events_after (ev : Event) (t : List Event) : List Event :=
  (t.dropWhile fun x => decide (x ≠ ev)).drop 1

/-! ## The control skeleton

The run depends on the state only through the events so far and the mutex of `cs_latch`;
the fired flag a wait finds is the one datum the notifications decide.  The skeleton runs the
same blocks on that view, the flag of each wait being given.  It is what the proofs about
all runs compute with; `spawn_and_wait_skeleton` below ties every run to it. -/

/-- The part of the state the control flow reads: whether the mutex of `cs_latch` is owned,
and the events so far. -/
structure View where
  mutex : Bool
  trace : List Event
  deriving DecidableEq, Repr

/-- The view of a state. -/
def State.view (s : State) : View :=
  { mutex := s.cs_latch.mutex, trace := s.trace }

/-- A step on views. -/
inductive VStep
  | next (v : View)
  | stop (o : Outcome) (v : View)
  deriving DecidableEq, Repr

/-- The view of a step. -/
def Step.view : Step → VStep
  | Step.next s => VStep.next s.view
  | Step.stop o s => VStep.stop o s.view

namespace VStep

/-- Sequencing on views. -/
def andThen (r : VStep) (f : View → VStep) : VStep :=
  match r with
  | next v => f v
  | stop o v => stop o v

/-- The outcome a chain of blocks amounts to. -/
def outcome : VStep → Outcome
  | next _ => Outcome.returned
  | stop o _ => o

/-- The events of a chain of blocks. -/
def trace : VStep → List Event
  | next v => v.trace
  | stop _ v => v.trace

/-- Whether the mutex of `cs_latch` is owned at the end. -/
def mutex : VStep → Bool
  | next v => v.mutex
  | stop _ v => v.mutex

end VStep

namespace View

/-- Appends an event. -/
def emit (v : View) (ev : Event) : View :=
  { v with trace := v.trace ++ [ev] }

/-- The call `cs_latch.lock()` on a view. -/
def lock (v : View) : VStep :=
  if v.mutex then VStep.stop (Outcome.relock LatchId.cs_latch) (v.emit (Event.lock LatchId.cs_latch))
  else VStep.next { mutex := true, trace := v.trace ++ [Event.lock LatchId.cs_latch] }

/-- The call `cs_latch.await(nt)` on a view, `fired` being the flag the wait finds. -/
def await (fired : Bool) (nt : NotificationType) (v : View) : VStep :=
  if fired then
    VStep.next { mutex := false, trace := v.trace ++ [Event.await LatchId.cs_latch nt] }
  else
    VStep.stop (Outcome.waiting LatchId.cs_latch nt)
      { mutex := false, trace := v.trace ++ [Event.await LatchId.cs_latch nt] }

/-- The skeleton of `must_return`. -/
def must_return (expected : Nat) (api : Api) (res : Api → Nat) (_fired : Bool) (v : View) :
    VStep :=
  if res api = expected then VStep.next (v.emit (Event.call api none))
  else
    VStep.stop (Outcome.thrown (NSpawnException.call_failed api (res api)))
      (v.emit (Event.call api none))

/-- The skeleton of `register_callback`. -/
def register_callback (res : Api → Nat) (fired : Bool) (v : View) : VStep :=
  ({ v with mutex := false }.lock).andThen fun v1 =>
    let v2 := v1.emit (Event.call Api.HcsRegisterComputeSystemCallback (some LatchId.cs_latch))
    if res Api.HcsRegisterComputeSystemCallback = 0 then v2.await fired SYSTEM_CREATE_COMPLETE
    else VStep.next v2

/-- The skeleton of `start`. -/
def start (res : Api → Nat) (fired : Bool) (v : View) : VStep :=
  v.lock.andThen fun v1 =>
    (v1.must_return OPERATION_PENDING Api.HcsStartComputeSystem res fired).andThen fun v2 =>
      v2.await fired SYSTEM_START_COMPLETE

/-- The skeleton of `process_callback`. -/
def process_callback (res : Api → Nat) (fired : Bool) (v : View) : VStep :=
  v.lock.andThen fun v1 =>
    let v2 := v1.emit (Event.call Api.HcsRegisterProcessCallback (some LatchId.cs_latch))
    if res Api.HcsRegisterProcessCallback = 0 then v2.await fired PROCESS_EXIT
    else VStep.next v2

/-- The skeleton of `terminate`. -/
def terminate (res : Api → Nat) (fired : Bool) (v : View) : VStep :=
  v.lock.andThen fun v1 =>
    let v2 := v1.emit (Event.call Api.HcsTerminateComputeSystem none)
    if res Api.HcsTerminateComputeSystem = OPERATION_PENDING then v2.await fired SYSTEM_EXIT
    else VStep.next v2

/-- The skeleton of a teardown block. -/
def teardown (api : Api) (_res : Api → Nat) (_fired : Bool) (v : View) : VStep :=
  VStep.next (v.emit (Event.call api none))

end View

/-- The skeletons of the blocks of `program`, in the same order. -/
def vprogram : List ((Api → Nat) → Bool → View → VStep) :=
  [View.must_return 0 Api.CreateSandboxLayer,
   View.must_return 0 Api.ActivateLayer,
   View.must_return 0 Api.PrepareLayer,
   View.must_return 0 Api.GetLayerMountPath,
   View.must_return OPERATION_PENDING Api.HcsCreateComputeSystem,
   View.register_callback,
   View.must_return 0 Api.HcsEnumerateComputeSystems,
   View.start,
   View.must_return 0 Api.HcsCreateProcess,
   View.process_callback,
   View.terminate,
   View.teardown Api.UnprepareLayer,
   View.teardown Api.DeactivateLayer,
   View.teardown Api.DestroyLayer]

/-- Runs block skeletons one after the other; `fired 0` is the flag for the first block,
`fired 1` for the next, and so on. -/
def vrun (res : Api → Nat) :
    List ((Api → Nat) → Bool → View → VStep) → (Nat → Bool) → View → VStep
  | [], _, v => VStep.stop Outcome.returned v
  | b :: bs, fired, v => (b res (fired 0) v).andThen (vrun res bs fun i => fired (i + 1))

/-- The skeleton of `spawn_and_wait`: given the return codes and, for the block at each
position, the fired flag its wait finds (positions 5, 7, 9 and 10 have a wait). -/
def skeleton (res : Api → Nat) (fired : Nat → Bool) : VStep :=
  vrun res vprogram fired { mutex := false, trace := [] }

/-- A property of the result of a skeleton run, kept folded while the run is taken apart
branch by branch. -/
def Holds (P : VStep → Prop) (r : VStep) : Prop :=
  P r

/-! ## hostcompute_nspawn -/

/-- Modelled from the spec: `su::is_positive_uint32` is a helper of the staticlib utilities,
whose source is not part of this repository; it accepts a length that is positive and fits
32 unsigned bits. -/
def is_positive_uint32 (v : Int) : Bool :=
  decide (0 < v ∧ v ≤ 4294967295)

/-- A `std::exception` that reaches the handler of `hostcompute_nspawn`: raised while the
configuration is loaded, or the `NSpawnException` of the run. -/
inductive Raised
  | load (what : String)
  | run (ex : NSpawnException)
  deriving DecidableEq, Repr

/-- The message handed to `alloc_copy`, by the return statement that builds it. -/
inductive Diagnostic
  | null_config_json
  | invalid_config_json_len (config_json_len : Int)
  | exception_raised (ex : Raised)
  deriving DecidableEq, Repr

/-- How a call of `hostcompute_nspawn` ends: it returns a `char*` (`none` is `nullptr`), or
the run inside it never comes back. -/
inductive Exit
  | returned (err_message : Option Diagnostic)
  | waiting (la : LatchId) (nt : NotificationType)
  | relock (la : LatchId)
  deriving DecidableEq, Repr

/-- A call of `hostcompute_nspawn`: how it ends and the events of the run it made. -/
structure Spawned where
  exit : Exit
  trace : List Event
  deriving DecidableEq, Repr

/-- The exported `hostcompute_nspawn(config_json, config_json_len)`, lines 374-388.  `load`
stands for `load_json` followed by the `NSpawnConfig` constructor, taken as given: it yields
the configuration or the message of the exception it raises.  A `none` pointer is
`nullptr`. -/
def hostcompute_nspawn (load : String → Int → Except String NSpawnConfig) (e : Engine)
    (the_false : Bool) (config_json : Option String) (config_json_len : Int) : Spawned :=
  match config_json with
  | none => { exit := Exit.returned (some Diagnostic.null_config_json), trace := [] }
  | some json =>
    if !is_positive_uint32 config_json_len then
      { exit := Exit.returned (some (Diagnostic.invalid_config_json_len config_json_len)),
        trace := [] }
    else
      match load json config_json_len with
      | Except.error what =>
        { exit := Exit.returned (some (Diagnostic.exception_raised (Raised.load what))),
          trace := [] }
      | Except.ok config =>
        let r := spawn_and_wait config e the_false
        match r.outcome with
        | Outcome.returned => { exit := Exit.returned none, trace := r.trace }
        | Outcome.thrown ex =>
          { exit := Exit.returned (some (Diagnostic.exception_raised (Raised.run ex))),
            trace := r.trace }
        | Outcome.waiting la nt => { exit := Exit.waiting la nt, trace := r.trace }
        | Outcome.relock la => { exit := Exit.relock la, trace := r.trace }

/-! ## Sample engines -/

/-- An engine that accepts every call (pending where the orchestrator expects pending) and
reports each completion once through the callback of the handle concerned. -/
def cooperative : Engine where
  res := fun api =>
    match api with
    | Api.HcsCreateComputeSystem => OPERATION_PENDING
    | Api.HcsStartComputeSystem => OPERATION_PENDING
    | Api.HcsTerminateComputeSystem => OPERATION_PENDING
    | _ => 0
  notifications := fun api =>
    match api with
    | Api.HcsRegisterComputeSystemCallback => [⟨Handle.computeSystem, SYSTEM_CREATE_COMPLETE⟩]
    | Api.HcsStartComputeSystem => [⟨Handle.computeSystem, SYSTEM_START_COMPLETE⟩]
    | Api.HcsRegisterProcessCallback => [⟨Handle.process, PROCESS_EXIT⟩]
    | Api.HcsTerminateComputeSystem => [⟨Handle.computeSystem, SYSTEM_EXIT⟩]
    | _ => []

/-- The engine `e` with the return code of one call replaced. -/
def Engine.returning (e : Engine) (api : Api) (res : Nat) : Engine :=
  { e with res := fun a => if a = api then res else e.res a }

/-- The engine `e` with the notifications after one call replaced. -/
def Engine.notifying (e : Engine) (api : Api) (ns : List Notification) : Engine :=
  { e with notifications := fun a => if a = api then ns else e.notifications a }

/-- An engine that refuses `terminateSystem` outright and fails the first two teardown
calls, everything before going well. -/
def failing_teardown : Engine :=
  ((cooperative.returning Api.HcsTerminateComputeSystem 5).returning
    Api.UnprepareLayer 5).returning Api.DeactivateLayer 5

/-- The cooperative engine, except that it reports `SYSTEM_CREATE_COMPLETE` twice. -/
def redelivering : Engine :=
  cooperative.notifying Api.HcsRegisterComputeSystemCallback
    [⟨Handle.computeSystem, SYSTEM_CREATE_COMPLETE⟩,
     ⟨Handle.computeSystem, SYSTEM_CREATE_COMPLETE⟩]

/-- A configuration for the sample runs. -/
def sample_config : NSpawnConfig where
  process_executable := "/bin/true"
  mapped_directory := "/mnt/x"
  parent_layer_directory := "/layers/base"
  process_directory := "/"
  stdout_filename := "out.txt"

/-! ## The latch: C1, C2, C3 -/

/-- C1, the code at a failing history.  In a fresh process `SYSTEM_EXIT` is signalled twice
on a latch; the second call loses the compare-exchange, which loads `true` into the static
`the_false`.  The next `unlock(PROCESS_EXIT)`, on the same latch or on another, fresh one,
then compares the unset flag with `true` and loses as well: the fired flag stays false and
a following `await(PROCESS_EXIT)` goes into the wait. -/
theorem unlock_after_repeated_signal_is_missed :
    (CallbackLatch.unlock_all {} false [SYSTEM_EXIT, SYSTEM_EXIT]).2 = true ∧
      (CallbackLatch.unlock_all {} false
        [SYSTEM_EXIT, SYSTEM_EXIT, PROCESS_EXIT]).1.flag PROCESS_EXIT = false ∧
      (CallbackLatch.unlock_all {} false
        [SYSTEM_EXIT, SYSTEM_EXIT, PROCESS_EXIT]).1.await PROCESS_EXIT =
        Awaited.waiting
          (CallbackLatch.unlock_all {} false [SYSTEM_EXIT, SYSTEM_EXIT, PROCESS_EXIT]).1 ∧
      (CallbackLatch.unlock {}
        (CallbackLatch.unlock_all {} false [SYSTEM_EXIT, SYSTEM_EXIT]).2
        PROCESS_EXIT).1.flag PROCESS_EXIT = false ∧
      (CallbackLatch.unlock {}
        (CallbackLatch.unlock_all {} false [SYSTEM_EXIT, SYSTEM_EXIT]).2
        PROCESS_EXIT).1.await PROCESS_EXIT = Awaited.waiting {} := by
  decide

/-- C2, the code at a failing input.  Three successive `unlock(SYSTEM_EXIT)` on a fresh latch
in a fresh process: the first broadcasts; the second does not broadcast but does not leave
the state as it was, it turns the static `the_false` to `true`; the third therefore wins the
compare-exchange again and broadcasts a second time. -/
theorem unlock_three_times_broadcasts_twice :
    (CallbackLatch.unlock_all {} false [SYSTEM_EXIT]).1.cv SYSTEM_EXIT = 1 ∧
      (CallbackLatch.unlock_all {} false [SYSTEM_EXIT]).2 = false ∧
      (CallbackLatch.unlock_all {} false [SYSTEM_EXIT, SYSTEM_EXIT]).1.cv SYSTEM_EXIT = 1 ∧
      (CallbackLatch.unlock_all {} false [SYSTEM_EXIT, SYSTEM_EXIT]).2 = true ∧
      (CallbackLatch.unlock_all {} false
        [SYSTEM_EXIT, SYSTEM_EXIT, SYSTEM_EXIT]).1.cv SYSTEM_EXIT = 2 := by
  decide

/-- C3.  For a notification type that is none of the four recognised ones, `await` throws
the unsupported-notification exception whatever the latch holds: it does not reach
`await_internal`, so it neither waits nor touches the mutex. -/
theorem await_unrecognised_throws (la : CallbackLatch) (nt : NotificationType)
    (h1 : nt ≠ SYSTEM_CREATE_COMPLETE) (h2 : nt ≠ SYSTEM_START_COMPLETE)
    (h3 : nt ≠ SYSTEM_EXIT) (h4 : nt ≠ PROCESS_EXIT) :
    la.await nt = Awaited.thrown NSpawnException.unsupported_notification_type := by
  simp [CallbackLatch.await, h1, h2, h3, h4]

/-- C3 at the four other named kinds, on a latch whose mutex is owned and whose flags are
all set. -/
theorem await_unrecognised_throws_witness :
    CallbackLatch.all_set.await SYSTEM_PAUSE_COMPLETE =
        Awaited.thrown NSpawnException.unsupported_notification_type ∧
      CallbackLatch.all_set.await SYSTEM_RESUME_COMPLETE =
        Awaited.thrown NSpawnException.unsupported_notification_type ∧
      CallbackLatch.all_set.await COMMON_INVALID =
        Awaited.thrown NSpawnException.unsupported_notification_type ∧
      CallbackLatch.all_set.await COMMON_SERVICE_DISCONNECT =
        Awaited.thrown NSpawnException.unsupported_notification_type :=
  ⟨await_unrecognised_throws _ _ (by decide) (by decide) (by decide) (by decide),
   await_unrecognised_throws _ _ (by decide) (by decide) (by decide) (by decide),
   await_unrecognised_throws _ _ (by decide) (by decide) (by decide) (by decide),
   await_unrecognised_throws _ _ (by decide) (by decide) (by decide) (by decide)⟩

/-! ## Frame lemmas: what the steps do to the trace and to the mutex of `cs_latch` -/

theorem CallbackLatch.unlock_mutex (la : CallbackLatch) (tf : Bool) (nt : NotificationType) :
    (la.unlock tf nt).1.mutex = la.mutex := by
  unfold CallbackLatch.unlock
  split_ifs <;> rfl

theorem State.cs_callback_trace (s : State) (nt : Nat) (l : LatchId) :
    (s.cs_callback nt l).trace = s.trace := by
  cases l <;> rfl

theorem State.cs_callback_mutex (s : State) (nt : Nat) (l : LatchId) :
    (s.cs_callback nt l).cs_latch.mutex = s.cs_latch.mutex := by
  cases l
  · exact CallbackLatch.unlock_mutex _ _ _
  · rfl

theorem State.deliver_trace (s : State) (n : Notification) : (s.deliver n).trace = s.trace := by
  unfold State.deliver
  split <;> split <;> simp [State.cs_callback_trace]

theorem State.deliver_mutex (s : State) (n : Notification) :
    (s.deliver n).cs_latch.mutex = s.cs_latch.mutex := by
  unfold State.deliver
  split <;> split <;> simp [State.cs_callback_mutex]

theorem State.foldl_deliver_trace (ns : List Notification) (s : State) :
    (ns.foldl State.deliver s).trace = s.trace := by
  induction ns generalizing s with
  | nil => rfl
  | cons n ns ih => simp [List.foldl, ih, State.deliver_trace]

theorem State.foldl_deliver_mutex (ns : List Notification) (s : State) :
    (ns.foldl State.deliver s).cs_latch.mutex = s.cs_latch.mutex := by
  induction ns generalizing s with
  | nil => rfl
  | cons n ns ih => simp [List.foldl, ih, State.deliver_mutex]

@[simp]
theorem State.invoke_trace (e : Engine) (api : Api) (s : State) :
    (s.invoke e api).trace = s.trace ++ [Event.call api none] := by
  simp [State.invoke, State.foldl_deliver_trace, State.emit]

@[simp]
theorem State.invoke_mutex (e : Engine) (api : Api) (s : State) :
    (s.invoke e api).cs_latch.mutex = s.cs_latch.mutex := by
  simp [State.invoke, State.foldl_deliver_mutex, State.emit]

@[simp]
theorem State.register_trace (e : Engine) (api : Api) (h : Handle) (l : LatchId)
    (s : State) : (s.register e api h l).trace = s.trace ++ [Event.call api (some l)] := by
  unfold State.register
  simp only [State.foldl_deliver_trace]
  split_ifs <;> cases h <;> rfl

@[simp]
theorem State.register_mutex (e : Engine) (api : Api) (h : Handle) (l : LatchId)
    (s : State) : (s.register e api h l).cs_latch.mutex = s.cs_latch.mutex := by
  unfold State.register
  simp only [State.foldl_deliver_mutex]
  split_ifs <;> cases h <;> rfl

@[simp]
theorem State.locked_trace (s : State) (l : LatchId) :
    (s.locked l).trace = s.trace ++ [Event.lock l] := by
  cases l <;> rfl

@[simp]
theorem State.locked_mutex (s : State) :
    (s.locked LatchId.cs_latch).cs_latch.mutex = true := rfl

@[simp]
theorem State.awaited_trace (s : State) (l : LatchId) (nt : NotificationType) :
    (s.awaited l nt).trace = s.trace ++ [Event.await l nt] := by
  cases l <;> rfl

@[simp]
theorem State.awaited_mutex (s : State) (nt : NotificationType) :
    (s.awaited LatchId.cs_latch nt).cs_latch.mutex = false := rfl

@[simp]
theorem State.construct_trace (s : State) (l : LatchId) :
    (s.construct l).trace = s.trace := by
  cases l <;> rfl

@[simp]
theorem State.construct_cs_mutex (s : State) :
    (s.construct LatchId.cs_latch).cs_latch.mutex = false := rfl

@[simp]
theorem State.construct_process_mutex (s : State) :
    (s.construct LatchId.process_latch).cs_latch.mutex = s.cs_latch.mutex := rfl

@[simp]
theorem State.emit_mutex (s : State) (ev : Event) :
    (s.emit ev).cs_latch.mutex = s.cs_latch.mutex := rfl

@[simp]
theorem State.emit_trace (s : State) (ev : Event) :
    (s.emit ev).trace = s.trace ++ [ev] := rfl

/-- The call `cs_latch.lock()` goes through when the mutex is free and stops the run when
the thread owns it. -/
theorem State.lock_eq (s : State) :
    s.lock LatchId.cs_latch =
      if s.cs_latch.mutex = true then
        Step.stop (Outcome.relock LatchId.cs_latch) (s.emit (Event.lock LatchId.cs_latch))
      else Step.next (s.locked LatchId.cs_latch) := by
  unfold State.lock CallbackLatch.lock State.locked
  simp only [State.latch]
  split_ifs <;> rfl

/-- On a recognised kind `await` is `await_internal` on the fired flag of that kind. -/
theorem CallbackLatch.await_recognised (la : CallbackLatch) (nt : NotificationType)
    (h : nt = SYSTEM_CREATE_COMPLETE ∨ nt = SYSTEM_START_COMPLETE ∨ nt = SYSTEM_EXIT ∨
      nt = PROCESS_EXIT) :
    la.await nt = la.await_internal (la.flag nt) := by
  rcases h with h | h | h | h <;> subst h <;> rfl

/-- The call `cs_latch.await(nt)` for a recognised kind returns when the fired flag is set and
stays in the wait otherwise. -/
theorem State.await_eq (s : State) (nt : NotificationType)
    (h : nt = SYSTEM_CREATE_COMPLETE ∨ nt = SYSTEM_START_COMPLETE ∨ nt = SYSTEM_EXIT ∨
      nt = PROCESS_EXIT) :
    s.await LatchId.cs_latch nt =
      if s.cs_latch.flag nt = true then Step.next (s.awaited LatchId.cs_latch nt)
      else Step.stop (Outcome.waiting LatchId.cs_latch nt) (s.awaited LatchId.cs_latch nt) := by
  unfold State.await State.awaited
  simp only [State.latch, CallbackLatch.await_recognised _ _ h, CallbackLatch.await_internal]
  split_ifs <;> rfl

theorem State.await_create (s : State) :
    s.await LatchId.cs_latch SYSTEM_CREATE_COMPLETE =
      if s.cs_latch.flag SYSTEM_CREATE_COMPLETE = true then
        Step.next (s.awaited LatchId.cs_latch SYSTEM_CREATE_COMPLETE)
      else Step.stop (Outcome.waiting LatchId.cs_latch SYSTEM_CREATE_COMPLETE)
        (s.awaited LatchId.cs_latch SYSTEM_CREATE_COMPLETE) :=
  State.await_eq s _ (Or.inl rfl)

theorem State.await_start (s : State) :
    s.await LatchId.cs_latch SYSTEM_START_COMPLETE =
      if s.cs_latch.flag SYSTEM_START_COMPLETE = true then
        Step.next (s.awaited LatchId.cs_latch SYSTEM_START_COMPLETE)
      else Step.stop (Outcome.waiting LatchId.cs_latch SYSTEM_START_COMPLETE)
        (s.awaited LatchId.cs_latch SYSTEM_START_COMPLETE) :=
  State.await_eq s _ (Or.inr (Or.inl rfl))

theorem State.await_exit (s : State) :
    s.await LatchId.cs_latch SYSTEM_EXIT =
      if s.cs_latch.flag SYSTEM_EXIT = true then
        Step.next (s.awaited LatchId.cs_latch SYSTEM_EXIT)
      else Step.stop (Outcome.waiting LatchId.cs_latch SYSTEM_EXIT)
        (s.awaited LatchId.cs_latch SYSTEM_EXIT) :=
  State.await_eq s _ (Or.inr (Or.inr (Or.inl rfl)))

theorem State.await_process_exit (s : State) :
    s.await LatchId.cs_latch PROCESS_EXIT =
      if s.cs_latch.flag PROCESS_EXIT = true then
        Step.next (s.awaited LatchId.cs_latch PROCESS_EXIT)
      else Step.stop (Outcome.waiting LatchId.cs_latch PROCESS_EXIT)
        (s.awaited LatchId.cs_latch PROCESS_EXIT) :=
  State.await_eq s _ (Or.inr (Or.inr (Or.inr rfl)))


/-! ## Sequencing lemmas -/

@[simp]
theorem Step.next_andThen (s : State) (f : State → Step) :
    (Step.next s).andThen f = f s := rfl

@[simp]
theorem Step.stop_andThen (o : Outcome) (s : State) (f : State → Step) :
    (Step.stop o s).andThen f = Step.stop o s := rfl

@[simp]
theorem Step.ite_andThen (c : Prop) [Decidable c] (a b : Step) (f : State → Step) :
    (if c then a else b).andThen f = if c then a.andThen f else b.andThen f := by
  split_ifs <;> rfl

@[simp]
theorem Step.finish_ite (c : Prop) [Decidable c] (a b : Step) :
    (if c then a else b).finish = if c then a.finish else b.finish := by
  split_ifs <;> rfl

@[simp]
theorem Step.finish_stop_trace (o : Outcome) (s : State) :
    (Step.stop o s).finish.trace = s.trace := rfl

@[simp]
theorem Step.finish_stop_outcome (o : Outcome) (s : State) :
    (Step.stop o s).finish.outcome = o := rfl

@[simp]
theorem Step.finish_next_trace (s : State) :
    (Step.next s).finish.trace = s.trace := rfl

@[simp]
theorem Step.finish_next_outcome (s : State) :
    (Step.next s).finish.outcome = Outcome.returned := rfl

/-! ## Every run follows the skeleton -/

theorem must_return_view (expected : Nat) (api : Api) (e : Engine) (s : State) (f : Bool) :
    (must_return expected e api s).view = View.must_return expected api e.res f s.view := by
  unfold must_return View.must_return
  by_cases h : expected = e.res api
  · simp [← h, Step.view, State.view, View.emit]
  · simp [h, Ne.symm h, Step.view, State.view, View.emit]

theorem State.lock_view (s : State) : (s.lock LatchId.cs_latch).view = s.view.lock := by
  rw [State.lock_eq]
  unfold View.lock
  by_cases h : s.cs_latch.mutex = true <;>
    simp [h, Step.view, State.view, View.emit]

theorem State.await_view (s : State) (nt : NotificationType)
    (h : nt = SYSTEM_CREATE_COMPLETE ∨ nt = SYSTEM_START_COMPLETE ∨ nt = SYSTEM_EXIT ∨
      nt = PROCESS_EXIT) :
    (s.await LatchId.cs_latch nt).view = s.view.await (s.cs_latch.flag nt) nt := by
  rw [State.await_eq s nt h]
  unfold View.await
  by_cases hf : s.cs_latch.flag nt = true <;> simp [hf, Step.view, State.view]

theorem Step.andThen_view (r : Step) (k : State → Step) (vr : VStep) (vk : View → VStep)
    (hr : r.view = vr) (hk : ∀ s, (k s).view = vk s.view) :
    (r.andThen k).view = vr.andThen vk := by
  subst hr
  cases r with
  | next s => exact hk s
  | stop o s => rfl

theorem register_callback_view (e : Engine) (s : State) :
    ∃ f, (register_callback e s).view = View.register_callback e.res f s.view := by
  refine ⟨(State.register e Api.HcsRegisterComputeSystemCallback Handle.computeSystem
    LatchId.cs_latch ((s.construct LatchId.cs_latch).locked LatchId.cs_latch)).cs_latch.flag
    SYSTEM_CREATE_COMPLETE, ?_⟩
  by_cases hr : 0 = e.res Api.HcsRegisterComputeSystemCallback
  · by_cases hf : (State.register e Api.HcsRegisterComputeSystemCallback Handle.computeSystem
        LatchId.cs_latch ((s.construct LatchId.cs_latch).locked
          LatchId.cs_latch)).cs_latch.flag SYSTEM_CREATE_COMPLETE = true <;>
      simp [register_callback, State.lock_eq, State.await_create, View.register_callback,
        View.lock, View.await, View.emit, VStep.andThen, Step.view, State.view, ← hr, hf]
  · simp [register_callback, State.lock_eq, State.await_create, View.register_callback,
      View.lock, View.await, View.emit, VStep.andThen, Step.view, State.view, hr, Ne.symm hr]

theorem start_view (e : Engine) (s : State) :
    ∃ f, (start e s).view = View.start e.res f s.view := by
  refine ⟨(State.invoke e Api.HcsStartComputeSystem
    (s.locked LatchId.cs_latch)).cs_latch.flag SYSTEM_START_COMPLETE, ?_⟩
  cases hm : s.cs_latch.mutex
  · by_cases hr : OPERATION_PENDING = e.res Api.HcsStartComputeSystem
    · by_cases hf : (State.invoke e Api.HcsStartComputeSystem
          (s.locked LatchId.cs_latch)).cs_latch.flag SYSTEM_START_COMPLETE = true <;>
        simp [start, State.lock_eq, must_return, State.await_start, View.start, View.lock,
          View.must_return, View.await, View.emit, VStep.andThen, Step.view, State.view, hm,
          ← hr, hf]
    · simp [start, State.lock_eq, must_return, State.await_start, View.start, View.lock,
        View.must_return, View.await, View.emit, VStep.andThen, Step.view, State.view, hm, hr, Ne.symm hr]
  · simp [start, State.lock_eq, View.start, View.lock, View.emit, VStep.andThen, Step.view,
      State.view, hm]

theorem process_callback_view (e : Engine) (s : State) :
    ∃ f, (process_callback e s).view = View.process_callback e.res f s.view := by
  refine ⟨(State.register e Api.HcsRegisterProcessCallback Handle.process
    LatchId.cs_latch ((s.construct LatchId.process_latch).locked LatchId.cs_latch)).cs_latch.flag
    PROCESS_EXIT, ?_⟩
  cases hm : s.cs_latch.mutex
  · by_cases hr : 0 = e.res Api.HcsRegisterProcessCallback
    · by_cases hf : (State.register e Api.HcsRegisterProcessCallback Handle.process
          LatchId.cs_latch ((s.construct LatchId.process_latch).locked
            LatchId.cs_latch)).cs_latch.flag PROCESS_EXIT = true <;>
        simp [process_callback, State.lock_eq, State.await_process_exit,
          View.process_callback, View.lock, View.await, View.emit, VStep.andThen, Step.view,
          State.view, hm, ← hr, hf]
    · simp [process_callback, State.lock_eq, State.await_process_exit,
        View.process_callback, View.lock, View.await, View.emit, VStep.andThen, Step.view,
        State.view, hm, hr, Ne.symm hr]
  · simp [process_callback, State.lock_eq, View.process_callback, View.lock, View.emit,
      VStep.andThen, Step.view, State.view, hm]

theorem terminate_view (e : Engine) (s : State) :
    ∃ f, (terminate e s).view = View.terminate e.res f s.view := by
  refine ⟨(State.invoke e Api.HcsTerminateComputeSystem
    (s.locked LatchId.cs_latch)).cs_latch.flag SYSTEM_EXIT, ?_⟩
  cases hm : s.cs_latch.mutex
  · by_cases hr : OPERATION_PENDING = e.res Api.HcsTerminateComputeSystem
    · by_cases hf : (State.invoke e Api.HcsTerminateComputeSystem
          (s.locked LatchId.cs_latch)).cs_latch.flag SYSTEM_EXIT = true <;>
        simp [terminate, State.lock_eq, State.await_exit, View.terminate, View.lock,
          View.await, View.emit, VStep.andThen, Step.view, State.view, hm, ← hr, hf]
    · simp [terminate, State.lock_eq, State.await_exit, View.terminate, View.lock,
        View.await, View.emit, VStep.andThen, Step.view, State.view, hm, hr, Ne.symm hr]
  · simp [terminate, State.lock_eq, View.terminate, View.lock, View.emit, VStep.andThen,
      Step.view, State.view, hm]

theorem unprepare_layer_view (e : Engine) (s : State) (f : Bool) :
    (unprepare_layer e s).view = View.teardown Api.UnprepareLayer e.res f s.view := by
  simp [unprepare_layer, View.teardown, Step.view, State.view, View.emit]

theorem deactivate_layer_view (e : Engine) (s : State) (f : Bool) :
    (deactivate_layer e s).view = View.teardown Api.DeactivateLayer e.res f s.view := by
  simp [deactivate_layer, View.teardown, Step.view, State.view, View.emit]

theorem destroy_layer_view (e : Engine) (s : State) (f : Bool) :
    (destroy_layer e s).view = View.teardown Api.DestroyLayer e.res f s.view := by
  simp [destroy_layer, View.teardown, Step.view, State.view, View.emit]

/-- Blocks that follow their skeletons, run one after the other, follow the skeletons run one
after the other. -/
theorem run_blocks_view (e : Engine) (bs : List (Engine → State → Step))
    (vbs : List ((Api → Nat) → Bool → View → VStep))
    (h : List.Forall₂ (fun b vb => ∀ s, ∃ f, (b e s).view = vb e.res f s.view) bs vbs) :
    ∀ s, ∃ fired, (run_blocks e bs s).view = vrun e.res vbs fired s.view := by
  induction h with
  | nil => intro s; exact ⟨fun _ => false, rfl⟩
  | cons hb _ ih =>
    intro s
    obtain ⟨f, hf⟩ := hb s
    rename_i b vb bs vbs _
    cases hs : b e s with
    | next s1 =>
      obtain ⟨fired, hfired⟩ := ih s1
      refine ⟨fun i => match i with | 0 => f | i + 1 => fired i, ?_⟩
      rw [hs] at hf
      simp only [run_blocks, vrun, hs, Step.next_andThen, ← hf, Step.view, VStep.andThen]
      exact hfired
    | stop o s1 =>
      refine ⟨fun _ => f, ?_⟩
      rw [hs] at hf
      simp only [run_blocks, vrun, hs, Step.stop_andThen, ← hf, Step.view, VStep.andThen]

theorem program_view (e : Engine) :
    List.Forall₂ (fun b vb => ∀ s, ∃ f, (b e s).view = vb e.res f s.view) program vprogram := by
  unfold program vprogram
  refine List.Forall₂.cons (fun s => ⟨false, must_return_view _ _ _ _ _⟩) ?_
  refine List.Forall₂.cons (fun s => ⟨false, must_return_view _ _ _ _ _⟩) ?_
  refine List.Forall₂.cons (fun s => ⟨false, must_return_view _ _ _ _ _⟩) ?_
  refine List.Forall₂.cons (fun s => ⟨false, must_return_view _ _ _ _ _⟩) ?_
  refine List.Forall₂.cons (fun s => ⟨false, must_return_view _ _ _ _ _⟩) ?_
  refine List.Forall₂.cons (register_callback_view e) ?_
  refine List.Forall₂.cons (fun s => ⟨false, must_return_view _ _ _ _ _⟩) ?_
  refine List.Forall₂.cons (start_view e) ?_
  refine List.Forall₂.cons (fun s => ⟨false, must_return_view _ _ _ _ _⟩) ?_
  refine List.Forall₂.cons (process_callback_view e) ?_
  refine List.Forall₂.cons (terminate_view e) ?_
  refine List.Forall₂.cons (fun s => ⟨false, unprepare_layer_view _ _ _⟩) ?_
  refine List.Forall₂.cons (fun s => ⟨false, deactivate_layer_view _ _ _⟩) ?_
  exact List.Forall₂.cons (fun s => ⟨false, destroy_layer_view _ _ _⟩) List.Forall₂.nil

theorem Step.finish_outcome (r : Step) : r.finish.outcome = r.view.outcome := by
  cases r <;> rfl

theorem Step.finish_trace (r : Step) : r.finish.trace = r.view.trace := by
  cases r <;> rfl

theorem Step.finish_mutex (r : Step) : r.finish.state.cs_latch.mutex = r.view.mutex := by
  cases r <;> rfl

/-- Every run of `spawn_and_wait` is a run of the skeleton on the same return codes, for the
flags its waits found: same outcome, same events, same final ownership of the mutex. -/
theorem spawn_and_wait_skeleton (config : NSpawnConfig) (e : Engine) (the_false : Bool) :
    ∃ fired, (spawn_and_wait config e the_false).outcome = (skeleton e.res fired).outcome ∧
      (spawn_and_wait config e the_false).trace = (skeleton e.res fired).trace ∧
      (spawn_and_wait config e the_false).state.cs_latch.mutex =
        (skeleton e.res fired).mutex := by
  obtain ⟨fired, h⟩ := run_blocks_view e program vprogram (program_view e)
    { the_false := the_false }
  refine ⟨fired, ?_, ?_, ?_⟩
  · rw [spawn_and_wait, Step.finish_outcome, h]; rfl
  · rw [spawn_and_wait, Step.finish_trace, h]; rfl
  · rw [spawn_and_wait, Step.finish_mutex, h]; rfl


/-! ## Computing with the skeleton -/

@[simp]
theorem VStep.andThen_next (v : View) (f : View → VStep) :
    (VStep.next v).andThen f = f v := rfl

@[simp]
theorem VStep.andThen_stop (o : Outcome) (v : View) (f : View → VStep) :
    (VStep.stop o v).andThen f = VStep.stop o v := rfl

@[simp]
theorem VStep.andThen_ite (c : Prop) [Decidable c] (a b : VStep) (f : View → VStep) :
    (if c then a else b).andThen f = if c then a.andThen f else b.andThen f := by
  split_ifs <;> rfl

@[simp]
theorem VStep.trace_ite (c : Prop) [Decidable c] (a b : VStep) :
    (if c then a else b).trace = if c then a.trace else b.trace := by
  split_ifs <;> rfl

@[simp]
theorem VStep.outcome_ite (c : Prop) [Decidable c] (a b : VStep) :
    (if c then a else b).outcome = if c then a.outcome else b.outcome := by
  split_ifs <;> rfl

@[simp]
theorem VStep.mutex_ite (c : Prop) [Decidable c] (a b : VStep) :
    (if c then a else b).mutex = if c then a.mutex else b.mutex := by
  split_ifs <;> rfl

@[simp]
theorem VStep.trace_next (v : View) : (VStep.next v).trace = v.trace := rfl

@[simp]
theorem VStep.trace_stop (o : Outcome) (v : View) : (VStep.stop o v).trace = v.trace :=
  rfl

@[simp]
theorem VStep.outcome_next (v : View) : (VStep.next v).outcome = Outcome.returned := rfl

@[simp]
theorem VStep.outcome_stop (o : Outcome) (v : View) : (VStep.stop o v).outcome = o := rfl

@[simp]
theorem VStep.mutex_next (v : View) : (VStep.next v).mutex = v.mutex := rfl

@[simp]
theorem VStep.mutex_stop (o : Outcome) (v : View) : (VStep.stop o v).mutex = v.mutex :=
  rfl


/-- A property holds of a branching result when it holds of each branch under its condition. -/
theorem Holds_ite (P : VStep → Prop) (c : Prop) [Decidable c] (a b : VStep) :
    Holds P (if c then a else b) ↔ (c → Holds P a) ∧ (¬c → Holds P b) := by
  by_cases h : c <;> simp [h]

/-! ## No signal is lost while no kind is reported twice -/

theorem CallbackLatch.flag_default (nt : NotificationType) :
    ({} : CallbackLatch).flag nt = false := by
  unfold CallbackLatch.flag
  split_ifs <;> rfl

/-- With the static `the_false` false and the flag of a recognised kind unset, `unlock` wins
the compare-exchange: it sets that flag, touches no other flag and leaves the static
false.  For any other kind it changes nothing. -/
theorem CallbackLatch.unlock_sound (la : CallbackLatch) (nt : NotificationType)
    (h : recognised nt = true → la.flag nt = false) :
    (la.unlock false nt).2 = false ∧
      (recognised nt = true → (la.unlock false nt).1.flag nt = true) ∧
      (∀ k, k ≠ nt → (la.unlock false nt).1.flag k = la.flag k) ∧
      (∀ k, la.flag k = true → (la.unlock false nt).1.flag k = true) := by
  by_cases h1 : nt = SYSTEM_CREATE_COMPLETE
  · subst h1
    have hf : la.system_create_flag = false := h (by decide)
    refine ⟨?_, ?_, ?_, ?_⟩ <;>
      simp [CallbackLatch.unlock, unlock_internal, compare_exchange_strong, hf,
        CallbackLatch.flag]
    · intro k hk; simp [hk]
    · intro k; split_ifs <;> simp_all
  by_cases h2 : nt = SYSTEM_START_COMPLETE
  · subst h2
    have hf : la.system_start_flag = false := h (by decide)
    refine ⟨?_, ?_, ?_, ?_⟩ <;>
      simp [CallbackLatch.unlock, unlock_internal, compare_exchange_strong, hf,
        CallbackLatch.flag, SYSTEM_START_COMPLETE, SYSTEM_CREATE_COMPLETE]
    · intro k hk; simp [hk]
    · intro k; split_ifs <;> simp_all
  by_cases h3 : nt = SYSTEM_EXIT
  · subst h3
    have hf : la.system_exit_flag = false := h (by decide)
    refine ⟨?_, ?_, ?_, ?_⟩ <;>
      simp [CallbackLatch.unlock, unlock_internal, compare_exchange_strong, hf,
        CallbackLatch.flag, SYSTEM_START_COMPLETE, SYSTEM_CREATE_COMPLETE, SYSTEM_EXIT]
    · intro k hk; simp [hk]
    · intro k; split_ifs <;> simp_all
  by_cases h4 : nt = PROCESS_EXIT
  · subst h4
    have hf : la.process_exit_flag = false := h (by decide)
    refine ⟨?_, ?_, ?_, ?_⟩ <;>
      simp [CallbackLatch.unlock, unlock_internal, compare_exchange_strong, hf,
        CallbackLatch.flag, SYSTEM_START_COMPLETE, SYSTEM_CREATE_COMPLETE, SYSTEM_EXIT,
        PROCESS_EXIT]
    · intro k hk; simp [hk]
    · intro k; split_ifs <;> simp_all
  · have hr : recognised nt = false := by simp [recognised, h1, h2, h3, h4]
    simp [CallbackLatch.unlock, h1, h2, h3, h4, hr]

theorem recognised_kinds_cons (n : Notification) (rest : List Notification) :
    recognised_kinds (n :: rest) =
      if recognised n.notificationType = true then n.notificationType :: recognised_kinds rest
      else recognised_kinds rest := by
  simp only [recognised_kinds, List.map_cons, List.filter_cons]

theorem recognised_kinds_append (ns rest : List Notification) :
    recognised_kinds (ns ++ rest) = recognised_kinds ns ++ recognised_kinds rest := by
  simp [recognised_kinds]

theorem recognised_of_mem_kinds (nt : NotificationType) (rest : List Notification)
    (h : nt ∈ recognised_kinds rest) : recognised nt = true := by
  simp only [recognised_kinds, List.mem_filter] at h
  exact h.2

theorem State.deliver_eq (s : State) (n : Notification) :
    s.deliver n =
      match s.context_of n with
      | some context => s.cs_callback n.notificationType context
      | none => s := by
  unfold State.deliver State.context_of
  cases n.handle <;> rfl

theorem State.cs_callback_cs_handle (s : State) (nt : Nat) (l : LatchId) :
    (s.cs_callback nt l).cs_callback_handle = s.cs_callback_handle := by
  cases l <;> rfl

theorem State.cs_callback_process_handle (s : State) (nt : Nat) (l : LatchId) :
    (s.cs_callback nt l).process_callback_handle = s.process_callback_handle := by
  cases l <;> rfl

theorem State.deliver_cs_handle (s : State) (n : Notification) :
    (s.deliver n).cs_callback_handle = s.cs_callback_handle := by
  rw [State.deliver_eq]
  split
  · exact State.cs_callback_cs_handle _ _ _
  · rfl

theorem State.deliver_process_handle (s : State) (n : Notification) :
    (s.deliver n).process_callback_handle = s.process_callback_handle := by
  rw [State.deliver_eq]
  split
  · exact State.cs_callback_process_handle _ _ _
  · rfl

theorem State.deliver_context_of (s : State) (n m : Notification) :
    (s.deliver n).context_of m = s.context_of m := by
  unfold State.context_of
  cases m.handle
  · exact State.deliver_cs_handle s n
  · exact State.deliver_process_handle s n

theorem State.Sound.context (s : State) (rest : List Notification) (h : s.Sound rest)
    (n : Notification) : s.context_of n = none ∨ s.context_of n = some LatchId.cs_latch := by
  unfold State.context_of
  cases n.handle
  · exact h.2.1
  · exact h.2.2.1

/-- One callback invocation keeps the state sound, clears no flag, and sets the flag of its
kind when it arrives through a registered callback. -/
theorem State.deliver_sound (s : State) (n : Notification) (rest : List Notification)
    (h : s.Sound (n :: rest)) :
    (s.deliver n).Sound rest ∧
      (∀ k, s.cs_latch.flag k = true → (s.deliver n).cs_latch.flag k = true) ∧
      (s.context_of n = some LatchId.cs_latch → recognised n.notificationType = true →
        (s.deliver n).cs_latch.flag n.notificationType = true) := by
  have hctx := State.Sound.context s _ h n
  obtain ⟨hf, hc, hp, hflags, hnd⟩ := h
  rw [recognised_kinds_cons] at hflags hnd
  have hrest : ∀ nt ∈ recognised_kinds rest, s.cs_latch.flag nt = false := by
    intro nt hnt
    apply hflags
    split_ifs
    · exact List.mem_cons_of_mem _ hnt
    · exact hnt
  have hndrest : (recognised_kinds rest).Nodup := by
    split_ifs at hnd
    · exact (List.nodup_cons.mp hnd).2
    · exact hnd
  rw [State.deliver_eq]
  rcases hctx with hnone | hsome
  · rw [hnone]
    exact ⟨⟨hf, hc, hp, hrest, hndrest⟩, fun _ hk => hk, fun hx => by simp at hx⟩
  · rw [hsome]
    have hunset : recognised n.notificationType = true →
        s.cs_latch.flag n.notificationType = false := by
      intro hr
      apply hflags
      rw [if_pos hr]
      exact List.mem_cons_self _ _
    obtain ⟨u1, u2, u3, u4⟩ := CallbackLatch.unlock_sound s.cs_latch n.notificationType hunset
    have hcb : (s.cs_callback n.notificationType LatchId.cs_latch).cs_latch =
        (s.cs_latch.unlock false n.notificationType).1 := by
      simp [State.cs_callback, State.latch, State.setLatch, hf]
    have htf : (s.cs_callback n.notificationType LatchId.cs_latch).the_false = false := by
      simp only [State.cs_callback, State.latch, State.setLatch, hf]
      exact u1
    refine ⟨⟨htf, hc, hp, ?_, hndrest⟩, ?_, ?_⟩
    · intro nt hnt
      rw [hcb, u3 nt ?_]
      · exact hrest nt hnt
      · intro heq
        subst heq
        have hr := recognised_of_mem_kinds _ _ hnt
        rw [if_pos hr] at hnd
        exact (List.nodup_cons.mp hnd).1 hnt
    · intro k hk
      rw [hcb]
      exact u4 k hk
    · intro _ hr
      rw [hcb]
      exact u2 hr

/-- A sequence of callback invocations keeps the state sound, clears no flag, and sets the
flag of every recognised kind that arrives through a registered callback. -/
theorem State.foldl_deliver_sound (ns : List Notification) (rest : List Notification)
    (s : State) (h : s.Sound (ns ++ rest)) :
    (ns.foldl State.deliver s).Sound rest ∧
      (∀ k, s.cs_latch.flag k = true → (ns.foldl State.deliver s).cs_latch.flag k = true) ∧
      (∀ n ∈ ns, s.context_of n = some LatchId.cs_latch →
        recognised n.notificationType = true →
        (ns.foldl State.deliver s).cs_latch.flag n.notificationType = true) := by
  induction ns generalizing s with
  | nil => exact ⟨h, fun _ hk => hk, fun n hn => by simp at hn⟩
  | cons m ms ih =>
    obtain ⟨h1, mono1, set1⟩ := State.deliver_sound s m (ms ++ rest) h
    obtain ⟨h2, mono2, set2⟩ := ih (s.deliver m) h1
    refine ⟨h2, fun k hk => mono2 k (mono1 k hk), ?_⟩
    intro n hn hctx hr
    rcases List.mem_cons.mp hn with heq | hmem
    · subst heq
      exact mono2 _ (set1 hctx hr)
    · exact set2 n hmem (by rw [State.deliver_context_of]; exact hctx) hr

theorem State.foldl_deliver_cs_handle (ns : List Notification) (s : State) :
    (ns.foldl State.deliver s).cs_callback_handle = s.cs_callback_handle := by
  induction ns generalizing s with
  | nil => rfl
  | cons n ns ih => simp [List.foldl, ih, State.deliver_cs_handle]

theorem State.invoke_cs_handle (e : Engine) (api : Api) (s : State) :
    (s.invoke e api).cs_callback_handle = s.cs_callback_handle := by
  simp [State.invoke, State.foldl_deliver_cs_handle, State.emit]

/-- A call that registers nothing keeps the state sound and sets the flag of every
recognised kind the engine reports after it through a registered callback. -/
theorem State.invoke_sound (e : Engine) (api : Api) (s : State) (rest : List Notification)
    (h : s.Sound (e.notifications api ++ rest)) :
    (s.invoke e api).Sound rest ∧
      (∀ n ∈ e.notifications api, s.context_of n = some LatchId.cs_latch →
        recognised n.notificationType = true →
        (s.invoke e api).cs_latch.flag n.notificationType = true) := by
  have h0 : (s.emit (Event.call api none)).Sound (e.notifications api ++ rest) := h
  obtain ⟨h1, -, set1⟩ := State.foldl_deliver_sound _ rest _ h0
  exact ⟨h1, set1⟩

theorem State.Sound.locked (s : State) (rest : List Notification) (h : s.Sound rest)
    (l : LatchId) : (s.locked l).Sound rest := by
  cases l
  · exact h
  · exact h

theorem State.Sound.awaited (s : State) (rest : List Notification) (h : s.Sound rest)
    (l : LatchId) (nt : NotificationType) : (s.awaited l nt).Sound rest := by
  cases l
  · exact h
  · exact h

theorem State.Sound.construct (s : State) (rest : List Notification) (h : s.Sound rest)
    (l : LatchId) : (s.construct l).Sound rest := by
  cases l
  · exact ⟨h.1, h.2.1, h.2.2.1, fun nt _ => CallbackLatch.flag_default nt, h.2.2.2.2⟩
  · exact h

theorem Step.Post.andThen (r : Step) (f : State → Step) (P P2 : State → Prop)
    (Q : Outcome → Prop) (hr : r.Post P Q) (hf : ∀ s, P s → (f s).Post P2 Q) :
    (r.andThen f).Post P2 Q := by
  cases r with
  | next s => exact hf s hr
  | stop o s => exact hr

theorem Engine.excuses_of_not_waiting (e : Engine) (o : Outcome)
    (h : o.is_waiting = false) : e.excuses o := by
  intro la nt ho
  subst ho
  simp [Outcome.is_waiting] at h

/-- An acquisition block keeps the state sound, the mutex and the registration as they
are; when it ends the run, it ends it with an exception. -/
theorem must_return_post (expected : Nat) (e : Engine) (api : Api) (s : State)
    (rest : List Notification) (h : s.Sound (e.notifications api ++ rest)) :
    (must_return expected e api s).Post
      (fun s2 => s2.Sound rest ∧ s2.cs_latch.mutex = s.cs_latch.mutex ∧
        s2.cs_callback_handle = s.cs_callback_handle) e.excuses := by
  unfold must_return
  split_ifs
  · exact Engine.excuses_of_not_waiting _ _ rfl
  · exact ⟨(State.invoke_sound e api s rest h).1, State.invoke_mutex e api s,
      State.invoke_cs_handle e api s⟩

theorem State.foldl_deliver_process_handle (ns : List Notification) (s : State) :
    (ns.foldl State.deliver s).process_callback_handle = s.process_callback_handle := by
  induction ns generalizing s with
  | nil => rfl
  | cons n ns ih => simp [List.foldl, ih, State.deliver_process_handle]

/-- A registration with `cs_latch` as context keeps the state sound; when it is accepted,
the flag of every recognised kind reported after it on the handle registered is set. -/
theorem State.register_sound (e : Engine) (api : Api) (h : Handle) (s : State)
    (rest : List Notification) (hs : s.Sound (e.notifications api ++ rest)) :
    (s.register e api h LatchId.cs_latch).Sound rest ∧
      (e.res api = 0 → ∀ n ∈ e.notifications api, n.handle = h →
        recognised n.notificationType = true →
        (s.register e api h LatchId.cs_latch).cs_latch.flag n.notificationType = true) := by
  unfold State.register
  by_cases hres : e.res api = 0
  · simp only [hres, if_true]
    cases h with
    | computeSystem =>
      have h0 : State.Sound { s.emit (Event.call api (some LatchId.cs_latch)) with
          cs_callback_handle := some LatchId.cs_latch } (e.notifications api ++ rest) :=
        ⟨hs.1, Or.inr rfl, hs.2.2.1, hs.2.2.2.1, hs.2.2.2.2⟩
      obtain ⟨h1, -, set1⟩ := State.foldl_deliver_sound _ rest _ h0
      refine ⟨h1, fun _ n hn hh hr => set1 n hn ?_ hr⟩
      simp [State.context_of, hh]
    | process =>
      have h0 : State.Sound { s.emit (Event.call api (some LatchId.cs_latch)) with
          process_callback_handle := some LatchId.cs_latch } (e.notifications api ++ rest) :=
        ⟨hs.1, hs.2.1, Or.inr rfl, hs.2.2.2.1, hs.2.2.2.2⟩
      obtain ⟨h1, -, set1⟩ := State.foldl_deliver_sound _ rest _ h0
      refine ⟨h1, fun _ n hn hh hr => set1 n hn ?_ hr⟩
      simp [State.context_of, hh]
  · simp only [hres, if_false]
    have h0 : (s.emit (Event.call api (some LatchId.cs_latch))).Sound
        (e.notifications api ++ rest) := hs
    obtain ⟨h1, -, -⟩ := State.foldl_deliver_sound _ rest _ h0
    exact ⟨h1, fun hc => hc.elim⟩

theorem State.register_cs_handle (e : Engine) (api : Api) (s : State)
    (h : e.res api = 0) :
    (s.register e api Handle.computeSystem LatchId.cs_latch).cs_callback_handle =
      some LatchId.cs_latch := by
  simp [State.register, h, State.foldl_deliver_cs_handle]

theorem State.register_process_cs_handle (e : Engine) (api : Api) (s : State) :
    (s.register e api Handle.process LatchId.cs_latch).cs_callback_handle =
      s.cs_callback_handle := by
  unfold State.register
  by_cases h : e.res api = 0
  · simp [h, State.foldl_deliver_cs_handle, State.emit]
  · simp [h, State.foldl_deliver_cs_handle, State.emit]

theorem State.locked_cs_handle (s : State) (l : LatchId) :
    (s.locked l).cs_callback_handle = s.cs_callback_handle := by
  cases l <;> rfl

theorem State.awaited_cs_handle (s : State) (l : LatchId) (nt : NotificationType) :
    (s.awaited l nt).cs_callback_handle = s.cs_callback_handle := by
  cases l <;> rfl

theorem Engine.mem_of_delivers (e : Engine) (nt : NotificationType) (api : Api)
    (hapi : deliverable_by nt = some api) (h : e.delivers nt = true) :
    Notification.mk (reported_on nt) nt ∈ e.notifications api := by
  unfold Engine.delivers at h
  rw [hapi] at h
  simpa using h

/-- The call `cs_latch.await(nt)` on a recognised kind whose flag is set whenever the engine
delivered the kind: the run goes on, or it stays in a wait the engine answers for. -/
theorem State.await_post (e : Engine) (s : State) (nt : NotificationType)
    (P : State → Prop)
    (hrec : nt = SYSTEM_CREATE_COMPLETE ∨ nt = SYSTEM_START_COMPLETE ∨ nt = SYSTEM_EXIT ∨
      nt = PROCESS_EXIT)
    (hflag : e.delivers nt = true → s.cs_latch.flag nt = true)
    (hP : P (s.awaited LatchId.cs_latch nt)) :
    (s.await LatchId.cs_latch nt).Post P e.excuses := by
  rw [State.await_eq s nt hrec]
  split_ifs with hf
  · exact hP
  · intro la nt2 ho
    injection ho with _ hnt
    subst hnt
    refine ⟨decide_eq_true hrec, ?_⟩
    cases hd : e.delivers nt with
    | false => rfl
    | true => exact absurd (hflag hd) hf

theorem recognised_create : recognised SYSTEM_CREATE_COMPLETE = true := by decide

theorem recognised_start : recognised SYSTEM_START_COMPLETE = true := by decide

theorem recognised_exit : recognised SYSTEM_EXIT = true := by decide

theorem recognised_process_exit : recognised PROCESS_EXIT = true := by decide

/-- Block `register callback` keeps the state sound and leaves the system callback
registered whenever it gives the mutex back. -/
theorem register_callback_post (e : Engine) (s : State) (rest : List Notification)
    (h : s.Sound (e.notifications Api.HcsRegisterComputeSystemCallback ++ rest)) :
    (register_callback e s).Post (fun s2 => s2.Sound rest ∧ s2.Registered) e.excuses := by
  unfold register_callback
  rw [State.lock_eq]
  simp only [State.construct_cs_mutex, Bool.false_eq_true, if_false, Step.next_andThen]
  have h0 : ((s.construct LatchId.cs_latch).locked LatchId.cs_latch).Sound
      (e.notifications Api.HcsRegisterComputeSystemCallback ++ rest) :=
    State.Sound.locked _ _ (State.Sound.construct _ _ h _) _
  obtain ⟨h1, set1⟩ := State.register_sound e Api.HcsRegisterComputeSystemCallback
    Handle.computeSystem _ rest h0
  by_cases hres : 0 = e.res Api.HcsRegisterComputeSystemCallback
  · rw [if_pos hres]
    refine State.await_post e _ _ (fun s2 => s2.Sound rest ∧ s2.Registered) (Or.inl rfl) ?_
      ⟨State.Sound.awaited _ _ h1 _ _, ?_⟩
    · intro hd
      exact set1 hres.symm _ (Engine.mem_of_delivers e SYSTEM_CREATE_COMPLETE _ rfl hd) rfl
        recognised_create
    · intro _
      rw [State.awaited_cs_handle]
      exact State.register_cs_handle e _ _ hres.symm
  · rw [if_neg hres]
    refine ⟨h1, ?_⟩
    intro hm
    simp at hm

/-- Block `start` keeps the state sound and the registration. -/
theorem start_post (e : Engine) (s : State) (rest : List Notification)
    (h : s.Sound (e.notifications Api.HcsStartComputeSystem ++ rest)) (hr : s.Registered) :
    (start e s).Post (fun s2 => s2.Sound rest ∧ s2.Registered) e.excuses := by
  unfold start
  rw [State.lock_eq]
  by_cases hm : s.cs_latch.mutex = true
  · rw [if_pos hm]
    exact Engine.excuses_of_not_waiting _ _ rfl
  · rw [if_neg hm, Step.next_andThen]
    have hreg : s.cs_callback_handle = some LatchId.cs_latch := hr (by simpa using hm)
    have h0 : (s.locked LatchId.cs_latch).Sound
        (e.notifications Api.HcsStartComputeSystem ++ rest) := State.Sound.locked _ _ h _
    obtain ⟨h1, set1⟩ := State.invoke_sound e Api.HcsStartComputeSystem _ rest h0
    unfold must_return
    by_cases hres : OPERATION_PENDING ≠ e.res Api.HcsStartComputeSystem
    · rw [if_pos hres]
      exact Engine.excuses_of_not_waiting _ _ rfl
    · rw [if_neg hres, Step.next_andThen]
      refine State.await_post e _ _ (fun s2 => s2.Sound rest ∧ s2.Registered)
        (Or.inr (Or.inl rfl)) ?_ ⟨State.Sound.awaited _ _ h1 _ _, ?_⟩
      · intro hd
        refine set1 _ (Engine.mem_of_delivers e SYSTEM_START_COMPLETE _ rfl hd) ?_
          recognised_start
        show (s.locked LatchId.cs_latch).cs_callback_handle = some LatchId.cs_latch
        rw [State.locked_cs_handle]
        exact hreg
      · intro _
        rw [State.awaited_cs_handle, State.invoke_cs_handle, State.locked_cs_handle]
        exact hreg

/-- Block `process callback` keeps the state sound and the registration. -/
theorem process_callback_post (e : Engine) (s : State) (rest : List Notification)
    (h : s.Sound (e.notifications Api.HcsRegisterProcessCallback ++ rest))
    (hr : s.Registered) :
    (process_callback e s).Post (fun s2 => s2.Sound rest ∧ s2.Registered) e.excuses := by
  unfold process_callback
  rw [State.lock_eq]
  simp only [State.construct_process_mutex]
  by_cases hm : s.cs_latch.mutex = true
  · rw [if_pos hm]
    exact Engine.excuses_of_not_waiting _ _ rfl
  · rw [if_neg hm, Step.next_andThen]
    have hreg : s.cs_callback_handle = some LatchId.cs_latch := hr (by simpa using hm)
    have h0 : ((s.construct LatchId.process_latch).locked LatchId.cs_latch).Sound
        (e.notifications Api.HcsRegisterProcessCallback ++ rest) :=
      State.Sound.locked _ _ (State.Sound.construct _ _ h _) _
    obtain ⟨h1, set1⟩ := State.register_sound e Api.HcsRegisterProcessCallback
      Handle.process _ rest h0
    by_cases hres : 0 = e.res Api.HcsRegisterProcessCallback
    · rw [if_pos hres]
      refine State.await_post e _ _ (fun s2 => s2.Sound rest ∧ s2.Registered)
        (Or.inr (Or.inr (Or.inr rfl))) ?_ ⟨State.Sound.awaited _ _ h1 _ _, ?_⟩
      · intro hd
        exact set1 hres.symm _ (Engine.mem_of_delivers e PROCESS_EXIT _ rfl hd) rfl
          recognised_process_exit
      · intro _
        rw [State.awaited_cs_handle, State.register_process_cs_handle,
          State.locked_cs_handle]
        exact hreg
    · rw [if_neg hres]
      refine ⟨h1, ?_⟩
      intro hm2
      simp at hm2

/-- Block `terminate` goes on, or ends the run in a way the engine answers for. -/
theorem terminate_post (e : Engine) (s : State) (rest : List Notification)
    (h : s.Sound (e.notifications Api.HcsTerminateComputeSystem ++ rest))
    (hr : s.Registered) :
    (terminate e s).Post (fun _ => True) e.excuses := by
  unfold terminate
  rw [State.lock_eq]
  by_cases hm : s.cs_latch.mutex = true
  · rw [if_pos hm]
    exact Engine.excuses_of_not_waiting _ _ rfl
  · rw [if_neg hm, Step.next_andThen]
    have hreg : s.cs_callback_handle = some LatchId.cs_latch := hr (by simpa using hm)
    have h0 : (s.locked LatchId.cs_latch).Sound
        (e.notifications Api.HcsTerminateComputeSystem ++ rest) :=
      State.Sound.locked _ _ h _
    obtain ⟨h1, set1⟩ := State.invoke_sound e Api.HcsTerminateComputeSystem _ rest h0
    by_cases hres : OPERATION_PENDING = e.res Api.HcsTerminateComputeSystem
    · rw [if_pos hres]
      refine State.await_post e _ _ (fun _ => True) (Or.inr (Or.inr (Or.inl rfl))) ?_ trivial
      intro hd
      refine set1 _ (Engine.mem_of_delivers e SYSTEM_EXIT _ rfl hd) ?_ recognised_exit
      show (s.locked LatchId.cs_latch).cs_callback_handle = some LatchId.cs_latch
      rw [State.locked_cs_handle]
      exact hreg
    · rw [if_neg hres]
      trivial

theorem run_blocks_post_cons (e : Engine) (b : Engine → State → Step)
    (bs : List (Engine → State → Step)) (s : State) (P : State → Prop) (Q : Outcome → Prop)
    (hb : (b e s).Post P Q)
    (hbs : ∀ s2, P s2 → (run_blocks e bs s2).Post (fun _ => False) Q) :
    (run_blocks e (b :: bs) s).Post (fun _ => False) Q :=
  Step.Post.andThen (b e s) (run_blocks e bs) P (fun _ => False) Q hb hbs

/-- The teardown blocks end the run by returning. -/
theorem teardown_blocks_post (e : Engine) (s : State) :
    (run_blocks e [unprepare_layer, deactivate_layer, destroy_layer] s).Post
      (fun _ => False) e.excuses := by
  simp only [run_blocks, unprepare_layer, deactivate_layer, destroy_layer, ite_self,
    Step.next_andThen]
  exact Engine.excuses_of_not_waiting _ _ rfl

theorem State.Registered.of_eq (s s2 : State) (hr : s.Registered)
    (hm : s2.cs_latch.mutex = s.cs_latch.mutex)
    (hh : s2.cs_callback_handle = s.cs_callback_handle) : s2.Registered := by
  intro h
  rw [hh]
  exact hr (by rw [← hm]; exact h)

/-- From a sound state the blocks of `spawn_and_wait` end the run, and not in a wait for a
kind that the engine delivered. -/
theorem run_blocks_post (e : Engine) (s : State)
    (h : s.Sound (e.notifications_of lifecycle)) :
    (run_blocks e program s).Post (fun _ => False) e.excuses := by
  unfold program
  refine run_blocks_post_cons e _ _ s _ _
    (must_return_post 0 e Api.CreateSandboxLayer s (e.notifications_of (lifecycle.drop 1)) h) ?_
  intro s1 h1
  refine run_blocks_post_cons e _ _ s1 _ _
    (must_return_post 0 e Api.ActivateLayer s1 (e.notifications_of (lifecycle.drop 2)) h1.1) ?_
  intro s2 h2
  refine run_blocks_post_cons e _ _ s2 _ _
    (must_return_post 0 e Api.PrepareLayer s2 (e.notifications_of (lifecycle.drop 3)) h2.1) ?_
  intro s3 h3
  refine run_blocks_post_cons e _ _ s3 _ _
    (must_return_post 0 e Api.GetLayerMountPath s3 (e.notifications_of (lifecycle.drop 4))
      h3.1) ?_
  intro s4 h4
  refine run_blocks_post_cons e _ _ s4 _ _
    (must_return_post OPERATION_PENDING e Api.HcsCreateComputeSystem s4
      (e.notifications_of (lifecycle.drop 5)) h4.1) ?_
  intro s5 h5
  refine run_blocks_post_cons e _ _ s5 _ _
    (register_callback_post e s5 (e.notifications_of (lifecycle.drop 6)) h5.1) ?_
  intro s6 h6
  refine run_blocks_post_cons e _ _ s6 _ _
    (must_return_post 0 e Api.HcsEnumerateComputeSystems s6
      (e.notifications_of (lifecycle.drop 7)) h6.1) ?_
  intro s7 h7
  refine run_blocks_post_cons e _ _ s7 _ _
    (start_post e s7 (e.notifications_of (lifecycle.drop 8)) h7.1
      (State.Registered.of_eq s6 s7 h6.2 h7.2.1 h7.2.2)) ?_
  intro s8 h8
  refine run_blocks_post_cons e _ _ s8 _ _
    (must_return_post 0 e Api.HcsCreateProcess s8 (e.notifications_of (lifecycle.drop 9))
      h8.1) ?_
  intro s9 h9
  refine run_blocks_post_cons e _ _ s9 _ _
    (process_callback_post e s9 (e.notifications_of (lifecycle.drop 10)) h9.1
      (State.Registered.of_eq s8 s9 h8.2 h9.2.1 h9.2.2)) ?_
  intro s10 h10
  refine run_blocks_post_cons e _ _ s10 _ _
    (terminate_post e s10 (e.notifications_of (lifecycle.drop 11)) h10.1 h10.2) ?_
  intro s11 _
  exact teardown_blocks_post e s11

theorem Step.Post.finish (r : Step) (Q : Outcome → Prop) (h : r.Post (fun _ => False) Q) :
    Q r.finish.outcome := by
  cases r with
  | next s => exact h.elim
  | stop o s => exact h

/-- A process that has not signalled before starts `spawn_and_wait` in a sound state when
the engine reports no recognised kind twice. -/
theorem State.fresh_sound (e : Engine) (hon : e.once) :
    State.Sound { the_false := false } (e.notifications_of lifecycle) :=
  ⟨rfl, Or.inl rfl, Or.inl rfl, fun nt _ => CallbackLatch.flag_default nt, hon⟩

/-- In a process that has not signalled before, against an engine that reports no
recognised kind twice, a run that stays in a wait waits for one of the four recognised kinds,
and the engine did not deliver that kind after the call that precedes the wait. -/
theorem wait_satisfied (config : NSpawnConfig) (e : Engine) (hon : e.once)
    (la : LatchId) (nt : NotificationType)
    (h : (spawn_and_wait config e false).outcome = Outcome.waiting la nt) :
    recognised nt = true ∧ e.delivers nt = false :=
  Step.Post.finish _ e.excuses (run_blocks_post e _ (State.fresh_sound e hon)) la nt h

/-! ## The lifecycle: C5, C6 -/

/-- An engine that returns the happy-path codes and notifies like the cooperative engine
yields the run of the cooperative engine, whatever its teardown calls return. -/
theorem cooperative_run (config : NSpawnConfig) (e : Engine) (the_false : Bool)
    (h1 : e.res Api.CreateSandboxLayer = 0) (h2 : e.res Api.ActivateLayer = 0)
    (h3 : e.res Api.PrepareLayer = 0) (h4 : e.res Api.GetLayerMountPath = 0)
    (h5 : e.res Api.HcsCreateComputeSystem = OPERATION_PENDING)
    (h6 : e.res Api.HcsRegisterComputeSystemCallback = 0)
    (h7 : e.res Api.HcsEnumerateComputeSystems = 0)
    (h8 : e.res Api.HcsStartComputeSystem = OPERATION_PENDING)
    (h9 : e.res Api.HcsCreateProcess = 0)
    (h10 : e.res Api.HcsRegisterProcessCallback = 0)
    (h11 : e.res Api.HcsTerminateComputeSystem = OPERATION_PENDING)
    (hn : e.notifications = cooperative.notifications) :
    spawn_and_wait config e the_false = spawn_and_wait config cooperative the_false := by
  have c1 : cooperative.res Api.CreateSandboxLayer = 0 := rfl
  have c2 : cooperative.res Api.ActivateLayer = 0 := rfl
  have c3 : cooperative.res Api.PrepareLayer = 0 := rfl
  have c4 : cooperative.res Api.GetLayerMountPath = 0 := rfl
  have c5 : cooperative.res Api.HcsCreateComputeSystem = OPERATION_PENDING := rfl
  have c6 : cooperative.res Api.HcsRegisterComputeSystemCallback = 0 := rfl
  have c7 : cooperative.res Api.HcsEnumerateComputeSystems = 0 := rfl
  have c8 : cooperative.res Api.HcsStartComputeSystem = OPERATION_PENDING := rfl
  have c9 : cooperative.res Api.HcsCreateProcess = 0 := rfl
  have c10 : cooperative.res Api.HcsRegisterProcessCallback = 0 := rfl
  have c11 : cooperative.res Api.HcsTerminateComputeSystem = OPERATION_PENDING := rfl
  simp only [spawn_and_wait, run_blocks, program, create_layer, activate_layer, prepare_layer,
    find_out_mount_path, create_container, register_callback, enumerate, start, start_process,
    process_callback, terminate, unprepare_layer, deactivate_layer, destroy_layer, must_return,
    State.invoke, State.register, hn, h1, h2, h3, h4, h5, h6, h7, h8, h9, h10, h11, c1, c2, c3,
    c4, c5, c6, c7, c8, c9, c10, c11, ite_self, ne_eq, not_true_eq_false]

/-- In a process that has not signalled before, an engine that returns the happy-path codes
and reports each completion once, like the cooperative engine, leaves no wait unsatisfied. -/
theorem cooperative_not_waiting (config : NSpawnConfig) (e : Engine)
    (h1 : e.res Api.CreateSandboxLayer = 0) (h2 : e.res Api.ActivateLayer = 0)
    (h3 : e.res Api.PrepareLayer = 0) (h4 : e.res Api.GetLayerMountPath = 0)
    (h5 : e.res Api.HcsCreateComputeSystem = OPERATION_PENDING)
    (h6 : e.res Api.HcsRegisterComputeSystemCallback = 0)
    (h7 : e.res Api.HcsEnumerateComputeSystems = 0)
    (h8 : e.res Api.HcsStartComputeSystem = OPERATION_PENDING)
    (h9 : e.res Api.HcsCreateProcess = 0)
    (h10 : e.res Api.HcsRegisterProcessCallback = 0)
    (h11 : e.res Api.HcsTerminateComputeSystem = OPERATION_PENDING)
    (hn : e.notifications = cooperative.notifications) :
    (spawn_and_wait config e false).not_waiting := by
  rw [cooperative_run config e false h1 h2 h3 h4 h5 h6 h7 h8 h9 h10 h11 hn]
  show (spawn_and_wait sample_config cooperative false).not_waiting
  decide

/-- When the four acquisition calls of the layer driver, `enumerate`, `createProcess` and
both registrations return 0, and `createSystem`, `startSystem` and `terminateSystem` return
the pending code, a run that does not end inside a wait issues the fourteen lifecycle calls
once each in source order and returns; this holds for every configuration, every value of
the static `the_false` at entry and every return code of the three teardown calls.  Whether
the run ends inside a wait is what `wait_satisfied` settles from the engine. -/
theorem lifecycle_of_not_waiting (config : NSpawnConfig) (e : Engine) (the_false : Bool)
    (h1 : e.res Api.CreateSandboxLayer = 0) (h2 : e.res Api.ActivateLayer = 0)
    (h3 : e.res Api.PrepareLayer = 0) (h4 : e.res Api.GetLayerMountPath = 0)
    (h5 : e.res Api.HcsCreateComputeSystem = OPERATION_PENDING)
    (h6 : e.res Api.HcsRegisterComputeSystemCallback = 0)
    (h7 : e.res Api.HcsEnumerateComputeSystems = 0)
    (h8 : e.res Api.HcsStartComputeSystem = OPERATION_PENDING)
    (h9 : e.res Api.HcsCreateProcess = 0)
    (h10 : e.res Api.HcsRegisterProcessCallback = 0)
    (h11 : e.res Api.HcsTerminateComputeSystem = OPERATION_PENDING)
    (hd : (spawn_and_wait config e the_false).not_waiting) :
    (spawn_and_wait config e the_false).calls = lifecycle ∧
      (spawn_and_wait config e the_false).outcome = Outcome.returned := by
  obtain ⟨fired, ho, ht, -⟩ := spawn_and_wait_skeleton config e the_false
  have key : Holds (fun r => r.outcome.is_waiting = false →
      r.trace.filterMap Event.api = lifecycle ∧ r.outcome = Outcome.returned) (skeleton e.res fired) := by
    simp only [skeleton, vprogram, vrun, View.must_return, View.register_callback, View.start,
      View.process_callback, View.terminate, View.teardown, View.lock, View.await, View.emit,
      VStep.andThen_next, VStep.andThen_stop, VStep.andThen_ite, Bool.false_eq_true, if_true,
      if_false, List.nil_append, List.cons_append, List.append_assoc, Nat.zero_add,
      Nat.reduceAdd, h1, h2, h3, h4, h5, h6, h7, h8, h9, h10, h11, Holds_ite]
    simp only [Holds, VStep.trace, VStep.outcome]
    repeat' (first | intro _ | apply And.intro)
    all_goals first | rfl | simp_all [Outcome.is_waiting]
  exact key (by simpa [Run.not_waiting, ho] using hd) |>.imp (by simp [Run.calls, ht]) (by simp [ho])

/-- In a process that has not signalled before, against an engine that returns the
happy-path codes, delivers each of the four awaited notifications and reports no recognised
kind twice, the run issues the fourteen lifecycle calls once each in source order and
returns, for every configuration and every return code of the three teardown calls. -/
theorem lifecycle_of_delivered_once (config : NSpawnConfig) (e : Engine)
    (h1 : e.res Api.CreateSandboxLayer = 0) (h2 : e.res Api.ActivateLayer = 0)
    (h3 : e.res Api.PrepareLayer = 0) (h4 : e.res Api.GetLayerMountPath = 0)
    (h5 : e.res Api.HcsCreateComputeSystem = OPERATION_PENDING)
    (h6 : e.res Api.HcsRegisterComputeSystemCallback = 0)
    (h7 : e.res Api.HcsEnumerateComputeSystems = 0)
    (h8 : e.res Api.HcsStartComputeSystem = OPERATION_PENDING)
    (h9 : e.res Api.HcsCreateProcess = 0)
    (h10 : e.res Api.HcsRegisterProcessCallback = 0)
    (h11 : e.res Api.HcsTerminateComputeSystem = OPERATION_PENDING)
    (hon : e.once) (hd : e.delivers_awaited) :
    (spawn_and_wait config e false).calls = lifecycle ∧
      (spawn_and_wait config e false).outcome = Outcome.returned := by
  apply lifecycle_of_not_waiting config e false h1 h2 h3 h4 h5 h6 h7 h8 h9 h10 h11
  show (spawn_and_wait config e false).outcome.is_waiting = false
  cases ho : (spawn_and_wait config e false).outcome with
  | waiting la nt =>
    obtain ⟨hr, hdel⟩ := wait_satisfied config e hon la nt ho
    obtain ⟨d1, d2, d3, d4⟩ := hd
    rcases of_decide_eq_true hr with h | h | h | h <;> subst h <;> simp_all
  | returned => rfl
  | thrown ex => rfl
  | relock la => rfl

/-- C5.  The code breaks the claim through the static `the_false` of `unlock_internal`.
The engine `redelivering` returns every code the claim asks for and delivers each of the
four awaited notifications, `SYSTEM_CREATE_COMPLETE` twice; in a process that has not
signalled before, the second `SYSTEM_CREATE_COMPLETE` leaves the static true, the unlock for
`SYSTEM_START_COMPLETE` then loses its exchange, and the run stays in the wait of the
`start` block after eight of the fourteen calls.  The cooperative engine, which delivers
each notification once, does the same in the first wait when the run is entered with the
static left true: the run stays there after six calls. -/
theorem happy_path_hangs_after_redelivery :
    (redelivering.succeeds ∧ redelivering.delivers_awaited ∧
      (spawn_and_wait sample_config redelivering false).outcome =
        Outcome.waiting LatchId.cs_latch SYSTEM_START_COMPLETE ∧
      (spawn_and_wait sample_config redelivering false).calls = lifecycle.take 8) ∧
    (cooperative.succeeds ∧ cooperative.delivers_awaited ∧
      (spawn_and_wait sample_config cooperative true).outcome =
        Outcome.waiting LatchId.cs_latch SYSTEM_CREATE_COMPLETE ∧
      (spawn_and_wait sample_config cooperative true).calls = lifecycle.take 6) := by
  decide

/-- C6.  A non-zero code from `CreateSandboxLayer`, `ActivateLayer`, `PrepareLayer` or
`GetLayerMountPath` (the earlier ones having returned 0) makes the run throw at that call:
the trace ends with it, so no compute-engine call and none of `UnprepareLayer`,
`DeactivateLayer`, `DestroyLayer` is issued. -/
theorem layer_failure_aborts (config : NSpawnConfig) (e : Engine) (the_false : Bool) :
    (e.res Api.CreateSandboxLayer ≠ 0 →
      (spawn_and_wait config e the_false).outcome = Outcome.thrown
        (NSpawnException.call_failed Api.CreateSandboxLayer (e.res Api.CreateSandboxLayer)) ∧
      (spawn_and_wait config e the_false).trace = [Event.call Api.CreateSandboxLayer none]) ∧
    (e.res Api.CreateSandboxLayer = 0 → e.res Api.ActivateLayer ≠ 0 →
      (spawn_and_wait config e the_false).outcome = Outcome.thrown
        (NSpawnException.call_failed Api.ActivateLayer (e.res Api.ActivateLayer)) ∧
      (spawn_and_wait config e the_false).trace =
        [Event.call Api.CreateSandboxLayer none, Event.call Api.ActivateLayer none]) ∧
    (e.res Api.CreateSandboxLayer = 0 → e.res Api.ActivateLayer = 0 →
        e.res Api.PrepareLayer ≠ 0 →
      (spawn_and_wait config e the_false).outcome = Outcome.thrown
        (NSpawnException.call_failed Api.PrepareLayer (e.res Api.PrepareLayer)) ∧
      (spawn_and_wait config e the_false).trace =
        [Event.call Api.CreateSandboxLayer none, Event.call Api.ActivateLayer none,
         Event.call Api.PrepareLayer none]) ∧
    (e.res Api.CreateSandboxLayer = 0 → e.res Api.ActivateLayer = 0 →
        e.res Api.PrepareLayer = 0 → e.res Api.GetLayerMountPath ≠ 0 →
      (spawn_and_wait config e the_false).outcome = Outcome.thrown
        (NSpawnException.call_failed Api.GetLayerMountPath (e.res Api.GetLayerMountPath)) ∧
      (spawn_and_wait config e the_false).trace =
        [Event.call Api.CreateSandboxLayer none, Event.call Api.ActivateLayer none,
         Event.call Api.PrepareLayer none, Event.call Api.GetLayerMountPath none]) := by
  obtain ⟨fired, ho, ht, -⟩ := spawn_and_wait_skeleton config e the_false
  rw [ho, ht]
  refine ⟨fun h1 => ?_, fun h1 h2 => ?_, fun h1 h2 h3 => ?_, fun h1 h2 h3 h4 => ?_⟩
  · simp [skeleton, vprogram, vrun, View.must_return, View.emit, h1]
  · simp [skeleton, vprogram, vrun, View.must_return, View.emit, h1, h2]
  · simp [skeleton, vprogram, vrun, View.must_return, View.emit, h1, h2, h3]
  · simp [skeleton, vprogram, vrun, View.must_return, View.emit, h1, h2, h3, h4]

/-- C6 at a failing `PrepareLayer`: the run is the three driver calls and the exception. -/
theorem layer_failure_aborts_witness :
    (spawn_and_wait sample_config (cooperative.returning Api.PrepareLayer 5) false).outcome =
        Outcome.thrown (NSpawnException.call_failed Api.PrepareLayer 5) ∧
      (spawn_and_wait sample_config (cooperative.returning Api.PrepareLayer 5) false).trace =
        [Event.call Api.CreateSandboxLayer none, Event.call Api.ActivateLayer none,
         Event.call Api.PrepareLayer none] :=
  (layer_failure_aborts sample_config (cooperative.returning Api.PrepareLayer 5) false).2.2.1
    (by decide) (by decide) (by decide)

/-! ## Teardown: C7 -/

/-- C7 as stated fails.  The engine accepts `terminateSystem` (pending) and then reports only
a service disconnect, which `unlock` ignores: the run reaches the terminate step, goes into
the wait for `SYSTEM_EXIT` and stays there; no teardown call is issued and it does not
return. -/
theorem teardown_waits_for_exit :
    Event.call Api.HcsTerminateComputeSystem none ∈
        (spawn_and_wait sample_config (cooperative.notifying Api.HcsTerminateComputeSystem
          [⟨Handle.computeSystem, COMMON_SERVICE_DISCONNECT⟩]) false).trace ∧
      (spawn_and_wait sample_config (cooperative.notifying Api.HcsTerminateComputeSystem
          [⟨Handle.computeSystem, COMMON_SERVICE_DISCONNECT⟩]) false).outcome =
        Outcome.waiting LatchId.cs_latch SYSTEM_EXIT ∧
      Api.UnprepareLayer ∉
        (spawn_and_wait sample_config (cooperative.notifying Api.HcsTerminateComputeSystem
          [⟨Handle.computeSystem, COMMON_SERVICE_DISCONNECT⟩]) false).calls := by
  decide

/-- Delivery alone does not satisfy the wait.  When the engine reports `PROCESS_EXIT` twice
the static `the_false` is left true, and the `SYSTEM_EXIT` that the engine then delivers
after the terminate call loses its exchange: the run stays in the wait, which is the defect
of `unlock_internal` and not the design of the teardown. -/
theorem teardown_loses_exit_after_redelivery :
    (cooperative.notifying Api.HcsRegisterProcessCallback
        [⟨Handle.process, PROCESS_EXIT⟩, ⟨Handle.process, PROCESS_EXIT⟩]).delivers
        SYSTEM_EXIT = true ∧
      (spawn_and_wait sample_config (cooperative.notifying Api.HcsRegisterProcessCallback
        [⟨Handle.process, PROCESS_EXIT⟩, ⟨Handle.process, PROCESS_EXIT⟩]) false).outcome =
        Outcome.waiting LatchId.cs_latch SYSTEM_EXIT := by
  decide

/-- In every run that issues `terminateSystem`, whatever the four teardown calls return:
`await(SYSTEM_EXIT)` is executed exactly when `terminateSystem` returned the pending code;
and in a run that does not end inside a wait, what follows the terminate call is that wait
(if any) and then `UnprepareLayer`, `DeactivateLayer`, `DestroyLayer`, the fourteen
lifecycle calls have each been issued once in order, and the run returns. -/
theorem teardown_of_not_waiting (config : NSpawnConfig) (e : Engine) (the_false : Bool)
    (hreach : Event.call Api.HcsTerminateComputeSystem none ∈
      (spawn_and_wait config e the_false).trace) :
    (Event.await LatchId.cs_latch SYSTEM_EXIT ∈ (spawn_and_wait config e the_false).trace ↔
        e.res Api.HcsTerminateComputeSystem = OPERATION_PENDING) ∧
      ((spawn_and_wait config e the_false).not_waiting →
        events_after (Event.call Api.HcsTerminateComputeSystem none)
            (spawn_and_wait config e the_false).trace =
          (if e.res Api.HcsTerminateComputeSystem = OPERATION_PENDING then
            [Event.await LatchId.cs_latch SYSTEM_EXIT] else []) ++
          [Event.call Api.UnprepareLayer none, Event.call Api.DeactivateLayer none,
           Event.call Api.DestroyLayer none] ∧
        (spawn_and_wait config e the_false).calls = lifecycle ∧
        (spawn_and_wait config e the_false).outcome = Outcome.returned) := by
  obtain ⟨fired, ho, ht, -⟩ := spawn_and_wait_skeleton config e the_false
  have key : Holds (fun r => Event.call Api.HcsTerminateComputeSystem none ∈ r.trace →
      (Event.await LatchId.cs_latch SYSTEM_EXIT ∈ r.trace ↔
        e.res Api.HcsTerminateComputeSystem = OPERATION_PENDING) ∧
      (r.outcome.is_waiting = false →
        events_after (Event.call Api.HcsTerminateComputeSystem none) r.trace =
          (if e.res Api.HcsTerminateComputeSystem = OPERATION_PENDING then
            [Event.await LatchId.cs_latch SYSTEM_EXIT] else []) ++
          [Event.call Api.UnprepareLayer none, Event.call Api.DeactivateLayer none,
           Event.call Api.DestroyLayer none] ∧
        r.trace.filterMap Event.api = lifecycle ∧ r.outcome = Outcome.returned)) (skeleton e.res fired) := by
    simp only [skeleton, vprogram, vrun, View.must_return, View.register_callback, View.start,
      View.process_callback, View.terminate, View.teardown, View.lock, View.await, View.emit,
      VStep.andThen_next, VStep.andThen_stop, VStep.andThen_ite, Bool.false_eq_true, if_true,
      if_false, List.nil_append, List.cons_append, List.append_assoc, Nat.zero_add,
      Nat.reduceAdd, Holds_ite]
    simp only [Holds, VStep.trace, VStep.outcome]
    repeat' (first | intro _ | apply And.intro)
    all_goals first
      | (exfalso; revert ‹Event.call Api.HcsTerminateComputeSystem none ∈ _›; decide)
      | (exfalso; revert ‹Outcome.is_waiting _ = false›; decide)
      | rfl
      | simp_all +decide [events_after]
  have := key (by simpa [ht] using hreach)
  simpa [Run.calls, Run.not_waiting, ho, ht] using this

/-- A run that has issued `terminateSystem` and ends inside a wait is in the wait for
`SYSTEM_EXIT`, and `terminateSystem` returned the pending code. -/
theorem terminate_wait (config : NSpawnConfig) (e : Engine) (the_false : Bool)
    (hreach : Event.call Api.HcsTerminateComputeSystem none ∈
      (spawn_and_wait config e the_false).trace)
    (la : LatchId) (nt : NotificationType)
    (hw : (spawn_and_wait config e the_false).outcome = Outcome.waiting la nt) :
    nt = SYSTEM_EXIT ∧ e.res Api.HcsTerminateComputeSystem = OPERATION_PENDING := by
  obtain ⟨fired, ho, ht, -⟩ := spawn_and_wait_skeleton config e the_false
  have key : Holds (fun r => Event.call Api.HcsTerminateComputeSystem none ∈ r.trace →
      r.outcome = Outcome.waiting la nt →
      nt = SYSTEM_EXIT ∧ e.res Api.HcsTerminateComputeSystem = OPERATION_PENDING)
      (skeleton e.res fired) := by
    simp only [skeleton, vprogram, vrun, View.must_return, View.register_callback, View.start,
      View.process_callback, View.terminate, View.teardown, View.lock, View.await, View.emit,
      VStep.andThen_next, VStep.andThen_stop, VStep.andThen_ite, Bool.false_eq_true, if_true,
      if_false, List.nil_append, List.cons_append, List.append_assoc, Nat.zero_add,
      Nat.reduceAdd, Holds_ite]
    simp only [Holds, VStep.trace, VStep.outcome]
    repeat' (first | intro _ | apply And.intro)
    all_goals first
      | (exfalso; revert ‹Event.call Api.HcsTerminateComputeSystem none ∈ _›; decide)
      | simp_all +decide
  exact key (by simpa [ht] using hreach) (by simpa [ho] using hw)

/-- C7, amended.  In every run that issues `terminateSystem`, whatever the four teardown
calls return: `await(SYSTEM_EXIT)` is executed exactly when `terminateSystem` returned the
pending code; and provided that, when it returned the pending code, the process has not
signalled before (the static `the_false` is false at entry), the engine reports no
recognised notification kind twice over the calls of the run, and it delivers `SYSTEM_EXIT`
on the compute system after the terminate call, what follows the terminate call is that
wait (if any) and then `UnprepareLayer`, `DeactivateLayer`, `DestroyLayer`, the fourteen
lifecycle calls have each been issued once in order, and the run returns without
throwing. -/
theorem teardown_best_effort (config : NSpawnConfig) (e : Engine) (the_false : Bool)
    (hreach : Event.call Api.HcsTerminateComputeSystem none ∈
      (spawn_and_wait config e the_false).trace) :
    (Event.await LatchId.cs_latch SYSTEM_EXIT ∈ (spawn_and_wait config e the_false).trace ↔
        e.res Api.HcsTerminateComputeSystem = OPERATION_PENDING) ∧
      ((e.res Api.HcsTerminateComputeSystem = OPERATION_PENDING →
          the_false = false ∧ e.once ∧ e.delivers SYSTEM_EXIT = true) →
        events_after (Event.call Api.HcsTerminateComputeSystem none)
            (spawn_and_wait config e the_false).trace =
          (if e.res Api.HcsTerminateComputeSystem = OPERATION_PENDING then
            [Event.await LatchId.cs_latch SYSTEM_EXIT] else []) ++
          [Event.call Api.UnprepareLayer none, Event.call Api.DeactivateLayer none,
           Event.call Api.DestroyLayer none] ∧
        (spawn_and_wait config e the_false).calls = lifecycle ∧
        (spawn_and_wait config e the_false).outcome = Outcome.returned) := by
  have hold := teardown_of_not_waiting config e the_false hreach
  refine ⟨hold.1, fun henv => hold.2 ?_⟩
  show (spawn_and_wait config e the_false).outcome.is_waiting = false
  cases hw : (spawn_and_wait config e the_false).outcome with
  | waiting la nt =>
    obtain ⟨hnt, hp⟩ := terminate_wait config e the_false hreach la nt hw
    obtain ⟨htf, hon, hd⟩ := henv hp
    subst htf
    subst hnt
    have hdel := (wait_satisfied config e hon la SYSTEM_EXIT hw).2
    rw [hd] at hdel
    exact absurd hdel (by decide)
  | returned => rfl
  | thrown ex => rfl
  | relock la => rfl

/-- C7, amended, at two engines.  Against the cooperative engine, in a process that has not
signalled before, `terminateSystem` is pending, `SYSTEM_EXIT` is delivered once, and the
wait is followed by the three teardown calls and the return.  Where `terminateSystem` fails
outright the wait is skipped and the three teardown calls follow although the first two of
them fail as well. -/
theorem teardown_best_effort_witness :
    (events_after (Event.call Api.HcsTerminateComputeSystem none)
          (spawn_and_wait sample_config cooperative false).trace =
        [Event.await LatchId.cs_latch SYSTEM_EXIT, Event.call Api.UnprepareLayer none,
         Event.call Api.DeactivateLayer none, Event.call Api.DestroyLayer none] ∧
      (spawn_and_wait sample_config cooperative false).outcome = Outcome.returned) ∧
    (Event.await LatchId.cs_latch SYSTEM_EXIT ∉
        (spawn_and_wait sample_config failing_teardown false).trace ∧
      events_after (Event.call Api.HcsTerminateComputeSystem none)
          (spawn_and_wait sample_config failing_teardown false).trace =
        [Event.call Api.UnprepareLayer none, Event.call Api.DeactivateLayer none,
         Event.call Api.DestroyLayer none] ∧
      (spawn_and_wait sample_config failing_teardown false).outcome = Outcome.returned) := by
  have hc := teardown_best_effort sample_config cooperative false (by decide)
  have h := teardown_best_effort sample_config failing_teardown false (by decide)
  refine ⟨⟨?_, (hc.2 (by decide)).2.2⟩, fun hmem => ?_, ?_, (h.2 (by decide)).2.2⟩
  · have h2 := (hc.2 (by decide)).1
    rwa [if_pos (by decide)] at h2
  · exact absurd (h.1.1 hmem) (by decide)
  · have h2 := (h.2 (by decide)).1
    rwa [if_neg (by decide)] at h2

/-! ## The degraded path: C8 -/

/-- C8, the code on the degraded path.  When `registerSystemCallback` returns an error (the
calls before it and `enumerate` succeeding), the run does not await `SYSTEM_CREATE_COMPLETE`
and does not throw, but the mutex taken by `lock()` is still owned when the `start` block
calls `lock()` again: the run ends there, before `startSystem` is issued. -/
theorem register_failure_relocks (config : NSpawnConfig) (e : Engine) (the_false : Bool)
    (h1 : e.res Api.CreateSandboxLayer = 0) (h2 : e.res Api.ActivateLayer = 0)
    (h3 : e.res Api.PrepareLayer = 0) (h4 : e.res Api.GetLayerMountPath = 0)
    (h5 : e.res Api.HcsCreateComputeSystem = OPERATION_PENDING)
    (h6 : e.res Api.HcsRegisterComputeSystemCallback ≠ 0)
    (h7 : e.res Api.HcsEnumerateComputeSystems = 0) :
    (spawn_and_wait config e the_false).outcome = Outcome.relock LatchId.cs_latch ∧
      (spawn_and_wait config e the_false).trace =
        [Event.call Api.CreateSandboxLayer none, Event.call Api.ActivateLayer none,
         Event.call Api.PrepareLayer none, Event.call Api.GetLayerMountPath none,
         Event.call Api.HcsCreateComputeSystem none, Event.lock LatchId.cs_latch,
         Event.call Api.HcsRegisterComputeSystemCallback (some LatchId.cs_latch),
         Event.call Api.HcsEnumerateComputeSystems none, Event.lock LatchId.cs_latch] ∧
      Api.HcsStartComputeSystem ∉ (spawn_and_wait config e the_false).calls := by
  obtain ⟨fired, ho, ht, -⟩ := spawn_and_wait_skeleton config e the_false
  have key : (skeleton e.res fired).outcome = Outcome.relock LatchId.cs_latch ∧
      (skeleton e.res fired).trace =
        [Event.call Api.CreateSandboxLayer none, Event.call Api.ActivateLayer none,
         Event.call Api.PrepareLayer none, Event.call Api.GetLayerMountPath none,
         Event.call Api.HcsCreateComputeSystem none, Event.lock LatchId.cs_latch,
         Event.call Api.HcsRegisterComputeSystemCallback (some LatchId.cs_latch),
         Event.call Api.HcsEnumerateComputeSystems none, Event.lock LatchId.cs_latch] := by
    simp [skeleton, vprogram, vrun, View.must_return, View.register_callback, View.start,
      View.lock, View.emit, h1, h2, h3, h4, h5, h6, h7]
  refine ⟨ho.trans key.1, ht.trans key.2, ?_⟩
  rw [Run.calls, ht, key.2]
  decide

/-- C8 at a failing input: the cooperative engine, except that `registerSystemCallback`
returns 5. -/
theorem register_failure_relocks_witness :
    (spawn_and_wait sample_config
        (cooperative.returning Api.HcsRegisterComputeSystemCallback 5) false).outcome =
      Outcome.relock LatchId.cs_latch ∧
    Api.HcsStartComputeSystem ∉ (spawn_and_wait sample_config
        (cooperative.returning Api.HcsRegisterComputeSystemCallback 5) false).calls := by
  have h := register_failure_relocks sample_config
    (cooperative.returning Api.HcsRegisterComputeSystemCallback 5) false rfl rfl rfl rfl rfl
    (by decide) rfl
  exact ⟨h.1, h.2.2⟩

/-! ## One latch for both handles: C9 -/

/-- C9, the code.  No run locks, awaits or registers `process_latch`, and whenever the
process callback is registered its context is `cs_latch`.  In the cooperative run the
process callback is registered with the address of `cs_latch`, the context already given
for the system callback, and `PROCESS_EXIT` is awaited on `cs_latch`. -/
theorem process_handle_shares_cs_latch :
    (∀ (config : NSpawnConfig) (e : Engine) (the_false : Bool),
      (spawn_and_wait config e the_false).trace.all
        (fun ev => decide (ev.latch ≠ some LatchId.process_latch) &&
          decide (ev.api = some Api.HcsRegisterProcessCallback →
            ev.latch = some LatchId.cs_latch)) = true) ∧
    Event.call Api.HcsRegisterComputeSystemCallback (some LatchId.cs_latch) ∈
      (spawn_and_wait sample_config cooperative false).trace ∧
    Event.call Api.HcsRegisterProcessCallback (some LatchId.cs_latch) ∈
      (spawn_and_wait sample_config cooperative false).trace ∧
    Event.await LatchId.cs_latch PROCESS_EXIT ∈
      (spawn_and_wait sample_config cooperative false).trace := by
  refine ⟨fun config e the_false => ?_, by decide, by decide, by decide⟩
  obtain ⟨fired, -, ht, -⟩ := spawn_and_wait_skeleton config e the_false
  have key : Holds (fun r => r.trace.all
      (fun ev => decide (ev.latch ≠ some LatchId.process_latch) &&
        decide (ev.api = some Api.HcsRegisterProcessCallback →
          ev.latch = some LatchId.cs_latch)) = true)
      (skeleton e.res fired) := by
    simp only [skeleton, vprogram, vrun, View.must_return, View.register_callback, View.start,
      View.process_callback, View.terminate, View.teardown, View.lock, View.await, View.emit,
      VStep.andThen_next, VStep.andThen_stop, VStep.andThen_ite, Bool.false_eq_true, if_true,
      if_false, List.nil_append, List.cons_append, List.append_assoc, Nat.zero_add,
      Nat.reduceAdd, Holds_ite]
    simp only [Holds, VStep.trace]
    repeat' (first | intro _ | apply And.intro)
    all_goals decide
  rw [ht]
  exact key

/-! ## Arm before fire: C10 -/

theorem armed_at_of_armed (t : List Event) (h : armed t = true) (i : Nat) :
    armed_at t i = true := by
  by_cases hi : i < t.length
  · exact List.all_eq_true.mp h i (List.mem_range.mpr hi)
  · unfold armed_at
    rw [List.getElem?_eq_none (Nat.le_of_not_lt hi)]

theorem armed_at_spec (t : List Event) (i : Nat) (la : LatchId) (nt : NotificationType)
    (hi : t[i]? = some (Event.await la nt)) (h : armed_at t i = true) :
    ∃ api context, deliverable_by nt = some api ∧ 2 ≤ i ∧
      t[i - 2]? = some (Event.lock la) ∧ t[i - 1]? = some (Event.call api context) := by
  unfold armed_at at h
  rw [hi] at h
  simp only [Bool.and_eq_true, decide_eq_true_eq] at h
  obtain ⟨⟨⟨h2, hlock⟩, hsome⟩, hcall⟩ := h
  obtain ⟨api, hapi⟩ := Option.isSome_iff_exists.mp hsome
  rw [hapi] at hcall
  obtain ⟨ev, hev, hevapi⟩ := Option.bind_eq_some.mp hcall
  cases ev with
  | call a context =>
    simp only [Event.api, Option.some.injEq] at hevapi
    subst hevapi
    exact ⟨a, context, hapi, h2, hlock, hev⟩
  | lock l => simp [Event.api] at hevapi
  | await l k => simp [Event.api] at hevapi

theorem skeleton_armed (res : Api → Nat) (fired : Nat → Bool) :
    armed (skeleton res fired).trace = true := by
  have key : Holds (fun r => armed r.trace = true) (skeleton res fired) := by
    simp only [skeleton, vprogram, vrun, View.must_return, View.register_callback, View.start,
      View.process_callback, View.terminate, View.teardown, View.lock, View.await, View.emit,
      VStep.andThen_next, VStep.andThen_stop, VStep.andThen_ite, Bool.false_eq_true, if_true,
      if_false, List.nil_append, List.cons_append, List.append_assoc, Nat.zero_add,
      Nat.reduceAdd, Holds_ite]
    simp only [Holds, VStep.trace]
    repeat' (first | intro _ | apply And.intro)
    all_goals decide
  exact key

/-- C10.  In every run, an `await(nt)` at position `i` of the trace has `lock()` on the same
latch at position `i - 2` and, at position `i - 1`, the engine call that makes `nt`
deliverable: the registration of the system callback for `SYSTEM_CREATE_COMPLETE`,
`startSystem` for `SYSTEM_START_COMPLETE`, the registration of the process callback for
`PROCESS_EXIT`, `terminateSystem` for `SYSTEM_EXIT`.  The trace lists every latch operation
and every external call of the orchestrating thread, so nothing else lies in between. -/
theorem arm_before_fire (config : NSpawnConfig) (e : Engine) (the_false : Bool) (i : Nat)
    (la : LatchId) (nt : NotificationType)
    (h : (spawn_and_wait config e the_false).trace[i]? = some (Event.await la nt)) :
    ∃ api context, deliverable_by nt = some api ∧ 2 ≤ i ∧
      (spawn_and_wait config e the_false).trace[i - 2]? = some (Event.lock la) ∧
      (spawn_and_wait config e the_false).trace[i - 1]? = some (Event.call api context) := by
  obtain ⟨fired, -, ht, -⟩ := spawn_and_wait_skeleton config e the_false
  refine armed_at_spec _ i la nt h (armed_at_of_armed _ ?_ i)
  rw [ht]
  exact skeleton_armed _ _

/-- C10 at the last wait of the cooperative run: `await(SYSTEM_EXIT)` is event 18, after
`lock()` and `terminateSystem`. -/
theorem arm_before_fire_witness :
    (spawn_and_wait sample_config cooperative false).trace[18]? =
        some (Event.await LatchId.cs_latch SYSTEM_EXIT) ∧
      ∃ api context, deliverable_by SYSTEM_EXIT = some api ∧ 2 ≤ 18 ∧
        (spawn_and_wait sample_config cooperative false).trace[18 - 2]? =
          some (Event.lock LatchId.cs_latch) ∧
        (spawn_and_wait sample_config cooperative false).trace[18 - 1]? =
          some (Event.call api context) :=
  ⟨by decide, arm_before_fire sample_config cooperative false 18 LatchId.cs_latch SYSTEM_EXIT
    (by decide)⟩

/-! ## The exported function: C4 -/

/-- C4 as stated fails.  With a well-formed configuration and an engine that accepts every
call but, after the registration of the system callback, reports only a service disconnect
(which `unlock` ignores), `spawn_and_wait` stays in the wait for `SYSTEM_CREATE_COMPLETE`:
the call returns neither success nor a diagnostic. -/
theorem hostcompute_nspawn_may_not_return :
    (hostcompute_nspawn (fun _ _ => Except.ok sample_config)
        (cooperative.notifying Api.HcsRegisterComputeSystemCallback
          [⟨Handle.computeSystem, COMMON_SERVICE_DISCONNECT⟩]) false (some "{}") 2).exit =
      Exit.waiting LatchId.cs_latch SYSTEM_CREATE_COMPLETE ∧
    (spawn_and_wait sample_config (cooperative.notifying Api.HcsRegisterComputeSystemCallback
        [⟨Handle.computeSystem, COMMON_SERVICE_DISCONNECT⟩]) false).outcome ≠
      Outcome.returned ∧
    ∀ err_message, (hostcompute_nspawn (fun _ _ => Except.ok sample_config)
        (cooperative.notifying Api.HcsRegisterComputeSystemCallback
          [⟨Handle.computeSystem, COMMON_SERVICE_DISCONNECT⟩]) false (some "{}") 2).exit ≠
      Exit.returned err_message := by
  refine ⟨by decide, by decide, fun err_message h => ?_⟩
  rw [show (hostcompute_nspawn (fun _ _ => Except.ok sample_config)
        (cooperative.notifying Api.HcsRegisterComputeSystemCallback
          [⟨Handle.computeSystem, COMMON_SERVICE_DISCONNECT⟩]) false (some "{}") 2).exit =
      Exit.waiting LatchId.cs_latch SYSTEM_CREATE_COMPLETE from by decide] at h
  cases h

/-- C4, amended.  The call returns `nullptr` exactly when `config_json` is not null, the
length is positive and fits 32 bits, the configuration loads and `spawn_and_wait` returns
without throwing.  A null `config_json` or a length that is not positive yields a diagnostic
and no call at all is made; so does a configuration that does not load; an exception thrown
by `spawn_and_wait` is caught and returned as a diagnostic. -/
theorem hostcompute_nspawn_reports (load : String → Int → Except String NSpawnConfig)
    (e : Engine) (the_false : Bool) (config_json : Option String) (config_json_len : Int) :
    ((hostcompute_nspawn load e the_false config_json config_json_len).exit =
        Exit.returned none ↔
      ∃ json config, config_json = some json ∧
        (0 < config_json_len ∧ config_json_len ≤ 4294967295) ∧
        load json config_json_len = Except.ok config ∧
        (spawn_and_wait config e the_false).outcome = Outcome.returned) ∧
    (config_json = none ∨ ¬(0 < config_json_len ∧ config_json_len ≤ 4294967295) →
      (∃ d, (hostcompute_nspawn load e the_false config_json config_json_len).exit =
        Exit.returned (some d)) ∧
      (hostcompute_nspawn load e the_false config_json config_json_len).trace = []) ∧
    (∀ json what, config_json = some json → load json config_json_len = Except.error what →
      (∃ d, (hostcompute_nspawn load e the_false config_json config_json_len).exit =
        Exit.returned (some d)) ∧
      (hostcompute_nspawn load e the_false config_json config_json_len).trace = []) ∧
    (∀ json config ex, config_json = some json →
      (0 < config_json_len ∧ config_json_len ≤ 4294967295) →
      load json config_json_len = Except.ok config →
      (spawn_and_wait config e the_false).outcome = Outcome.thrown ex →
      (hostcompute_nspawn load e the_false config_json config_json_len).exit =
        Exit.returned (some (Diagnostic.exception_raised (Raised.run ex)))) := by
  have hval : is_positive_uint32 config_json_len = true ↔
      (0 < config_json_len ∧ config_json_len ≤ 4294967295) := by
    simp [is_positive_uint32]
  refine ⟨?_, ?_, ?_, ?_⟩
  · cases config_json with
    | none => simp [hostcompute_nspawn]
    | some json =>
      cases hp : is_positive_uint32 config_json_len with
      | false =>
        have hlen := mt hval.mpr (by simp [hp])
        simp [hostcompute_nspawn, hp, hlen]
      | true =>
        have hlen := hval.mp hp
        cases hload : load json config_json_len with
        | error what => simp [hostcompute_nspawn, hp, hload]
        | ok config =>
          cases hout : (spawn_and_wait config e the_false).outcome <;>
            simp [hostcompute_nspawn, hp, hload, hlen, hout]
  · rintro (hnull | hlen)
    · subst hnull
      simp [hostcompute_nspawn]
    · have hp : is_positive_uint32 config_json_len = false := by
        cases h : is_positive_uint32 config_json_len with
        | false => rfl
        | true => exact absurd (hval.mp h) hlen
      cases config_json <;> simp [hostcompute_nspawn, hp]
  · intro json what hjson hload
    subst hjson
    cases hp : is_positive_uint32 config_json_len <;> simp [hostcompute_nspawn, hp, hload]
  · intro json config ex hjson hlen hload hout
    subst hjson
    simp [hostcompute_nspawn, hval.mpr hlen, hload, hout]

/-- C4, amended, on three inputs: a null pointer, a negative length, and a failing
`PrepareLayer` whose exception comes back as the diagnostic. -/
theorem hostcompute_nspawn_reports_witness :
    ((∃ d, (hostcompute_nspawn (fun _ _ => Except.ok sample_config) cooperative false none
        2).exit = Exit.returned (some d)) ∧
      (hostcompute_nspawn (fun _ _ => Except.ok sample_config) cooperative false none
        2).trace = []) ∧
    ((∃ d, (hostcompute_nspawn (fun _ _ => Except.ok sample_config) cooperative false
        (some "{}") (-1)).exit = Exit.returned (some d)) ∧
      (hostcompute_nspawn (fun _ _ => Except.ok sample_config) cooperative false
        (some "{}") (-1)).trace = []) ∧
    (hostcompute_nspawn (fun _ _ => Except.ok sample_config)
        (cooperative.returning Api.PrepareLayer 5) false (some "{}") 2).exit =
      Exit.returned (some (Diagnostic.exception_raised
        (Raised.run (NSpawnException.call_failed Api.PrepareLayer 5)))) :=
  ⟨(hostcompute_nspawn_reports _ cooperative false none 2).2.1 (Or.inl rfl),
   (hostcompute_nspawn_reports _ cooperative false (some "{}") (-1)).2.1
     (Or.inr (by decide)),
   (hostcompute_nspawn_reports (fun _ _ => Except.ok sample_config)
     (cooperative.returning Api.PrepareLayer 5) false (some "{}") 2).2.2.2 "{}" sample_config
     (NSpawnException.call_failed Api.PrepareLayer 5) rfl (by decide) rfl (by decide)⟩

/-! ## Arm and await in pairs: C11 -/

/-- The balance read off the trace agrees with the mutex of the run: it is `none` exactly
when the run ends in a second `lock()`, and otherwise `cs_latch` is still held exactly when
its mutex is owned at the end. -/
theorem arm_balance_run (config : NSpawnConfig) (e : Engine) (the_false : Bool) :
    arm_balance [] (spawn_and_wait config e the_false).trace =
      if (spawn_and_wait config e the_false).outcome.is_relock = true then none
      else if (spawn_and_wait config e the_false).state.cs_latch.mutex = true then
        some [LatchId.cs_latch]
      else some [] := by
  obtain ⟨fired, ho, ht, hm⟩ := spawn_and_wait_skeleton config e the_false
  have key : Holds (fun r => arm_balance [] r.trace =
      if r.outcome.is_relock = true then none
      else if r.mutex = true then some [LatchId.cs_latch] else some [])
      (skeleton e.res fired) := by
    simp only [skeleton, vprogram, vrun, View.must_return, View.register_callback, View.start,
      View.process_callback, View.terminate, View.teardown, View.lock, View.await, View.emit,
      VStep.andThen_next, VStep.andThen_stop, VStep.andThen_ite, Bool.false_eq_true, if_true,
      if_false, List.nil_append, List.cons_append, List.append_assoc, Nat.zero_add,
      Nat.reduceAdd, Holds_ite]
    simp only [Holds, VStep.trace, VStep.outcome, VStep.mutex]
    repeat' (first | intro _ | apply And.intro)
    all_goals first | decide | rfl
  rw [ho, ht, hm]
  exact key

/-- Where the pairing does hold: when both registrations return 0 and `startSystem` and
`terminateSystem` return the pending code, every `lock()` of the run is followed by its
`await`, whatever the other calls return and whether or not the waits are satisfied. -/
theorem arm_balance_of_accepted (config : NSpawnConfig) (e : Engine) (the_false : Bool)
    (h6 : e.res Api.HcsRegisterComputeSystemCallback = 0)
    (h8 : e.res Api.HcsStartComputeSystem = OPERATION_PENDING)
    (h10 : e.res Api.HcsRegisterProcessCallback = 0)
    (h11 : e.res Api.HcsTerminateComputeSystem = OPERATION_PENDING) :
    arm_balance [] (spawn_and_wait config e the_false).trace = some [] := by
  obtain ⟨fired, -, ht, -⟩ := spawn_and_wait_skeleton config e the_false
  have key : Holds (fun r => arm_balance [] r.trace = some []) (skeleton e.res fired) := by
    simp only [skeleton, vprogram, vrun, View.must_return, View.register_callback, View.start,
      View.process_callback, View.terminate, View.teardown, View.lock, View.await, View.emit,
      VStep.andThen_next, VStep.andThen_stop, VStep.andThen_ite, Bool.false_eq_true, if_true,
      if_false, List.nil_append, List.cons_append, List.append_assoc, Nat.zero_add,
      Nat.reduceAdd, h6, h8, h10, h11,Holds_ite]
    simp only [Holds, VStep.trace]
    repeat' (first | intro _ | apply And.intro)
    all_goals decide
  rw [ht]
  exact key

/-- C11, the code at four failing inputs, each the cooperative engine with one return code
replaced by 5.  A failed registration of the system callback, or of the process callback,
skips the `await`, and the next `lock()` is called on the mutex still held.  A `startSystem`
that does not return pending throws, and a `terminateSystem` that does not return pending
lets the run return, in both cases with the mutex of `cs_latch` still owned when the latch
goes out of scope. -/
theorem lock_left_unpaired :
    (arm_balance [] (spawn_and_wait sample_config
        (cooperative.returning Api.HcsRegisterComputeSystemCallback 5) false).trace = none ∧
      (spawn_and_wait sample_config
        (cooperative.returning Api.HcsRegisterComputeSystemCallback 5) false).outcome =
        Outcome.relock LatchId.cs_latch) ∧
    (arm_balance [] (spawn_and_wait sample_config
        (cooperative.returning Api.HcsRegisterProcessCallback 5) false).trace = none ∧
      (spawn_and_wait sample_config
        (cooperative.returning Api.HcsRegisterProcessCallback 5) false).outcome =
        Outcome.relock LatchId.cs_latch) ∧
    (arm_balance [] (spawn_and_wait sample_config
        (cooperative.returning Api.HcsStartComputeSystem 5) false).trace =
        some [LatchId.cs_latch] ∧
      (spawn_and_wait sample_config
        (cooperative.returning Api.HcsStartComputeSystem 5) false).outcome =
        Outcome.thrown (NSpawnException.call_failed Api.HcsStartComputeSystem 5) ∧
      (spawn_and_wait sample_config
        (cooperative.returning Api.HcsStartComputeSystem 5) false).state.cs_latch.mutex =
        true) ∧
    (arm_balance [] (spawn_and_wait sample_config
        (cooperative.returning Api.HcsTerminateComputeSystem 5) false).trace =
        some [LatchId.cs_latch] ∧
      (spawn_and_wait sample_config
        (cooperative.returning Api.HcsTerminateComputeSystem 5) false).outcome =
        Outcome.returned ∧
      (spawn_and_wait sample_config
        (cooperative.returning Api.HcsTerminateComputeSystem 5) false).state.cs_latch.mutex =
        true) := by
  decide

end nspawn
